import Mathlib

/-!
Verification of the OCR post-recognition correction pipeline.

This file gives a shallow embedding, in Lean 4, of the pure core of the
repository's services:

* `app/services/dictionary_corrector.py` — phrase / fuzzy word correction and
  currency normalization (`correct_word`, `_apply_multi_word_corrections`,
  `correct_with_stats`, `normalize_currency_and_numbers`,
  `correct_text_with_currency`, plus the `PHRASE_CORRECTIONS`,
  `MULTI_WORD_CORRECTIONS` and `KAMUS_DOKUMEN`/`NAMA_INDONESIA` tables),
* `app/services/ocr_service.py` — the multi-page reassembly logic of
  `OCRService.proses_file` (per-page recognition itself is I/O and is
  abstracted as given per-page results),
* `app/services/learning_service.py` — `LearningService.track_unknown_words`
  over an explicit association-list model of the `learned_words` table,
* `app/services/scoring_service.py` — `calculate_quality_score`.

Modelling conventions: Python strings are Lean `String`/`List Char` (all data
in the repository's tables is ASCII, so the ASCII case maps model Python's
`str.lower`/`upper`/`title`/`capitalize`/`isupper` exactly on the inputs that
occur); Python floats are modelled as exact rationals `ℚ`; Python's `re`
subset used by the source is implemented operationally (leftmost scan,
greedy/backtracking alternation and repetition, case-insensitive matching
where the source passes `re.IGNORECASE`); `rapidfuzz`'s `fuzz.ratio` is the
normalized indel similarity `200·lcs(a,b)/(|a|+|b|)` and
`process.extractOne(..., score_cutoff=t)` keeps the first strictly-best
candidate scoring at least `t` (the source dictionary is a Python set, whose
iteration order is unspecified; concrete theorems below only rely on inputs
whose best candidate is a strict maximum, so the order does not matter);
`HAS_RAPIDFUZZ` is modelled as true. Python dict literals are modelled by
their pair lists in source order, with lookup taking the last binding of a
key and key iteration taking first occurrences (both dict literals in the
source repeat some keys, always with identical values).
-/

namespace OCR

/-! ### ASCII models of the Python string primitives used by the source -/

/-- ASCII lowercase letter. -/
def isLowerC (c : Char) : Bool := decide ('a' ≤ c ∧ c ≤ 'z')

/-- ASCII uppercase letter. -/
def isUpperC (c : Char) : Bool := decide ('A' ≤ c ∧ c ≤ 'Z')

/-- ASCII letter (models Python `str.isalpha` per character on ASCII data). -/
def isAlphaC (c : Char) : Bool := isLowerC c || isUpperC c

/-- ASCII digit (models Python `str.isdigit` per character on ASCII data). -/
def isDigitC (c : Char) : Bool := decide ('0' ≤ c ∧ c ≤ '9')

/-- Python `\s` for ASCII: space, tab, newline, vertical tab, form feed, carriage return. -/
def isPySpace (c : Char) : Bool :=
  c = ' ' || c = '\t' || c = '\n' || c = '\x0b' || c = '\x0c' || c = '\r'

/-- Lower-case one ASCII character. -/
def lowerC (c : Char) : Char := if isUpperC c then Char.ofNat (c.toNat + 32) else c

/-- Upper-case one ASCII character. -/
def upperC (c : Char) : Char := if isLowerC c then Char.ofNat (c.toNat - 32) else c

/-- Python `str.lower` on a character list. -/
def pyLowerL (l : List Char) : List Char := l.map lowerC

/-- Python `str.upper` on a character list. -/
def pyUpperL (l : List Char) : List Char := l.map upperC

/-- Python `str.lower`. -/
def pyLower (s : String) : String := String.mk (pyLowerL s.data)

/-- Python `str.isupper`: at least one cased character and no lower-case cased character. -/
def pyIsUpper (l : List Char) : Bool :=
  l.any isAlphaC && l.all (fun c => !(isAlphaC c) || isUpperC c)

/-- Python `str.capitalize`: first character upper-cased, the rest lower-cased. -/
def pyCapitalize (l : List Char) : List Char :=
  match l with
  | [] => []
  | c :: cs => upperC c :: cs.map lowerC

/-- Helper for `pyTitle`: the boolean records whether the previous character was cased. -/
def pyTitleGo : Bool → List Char → List Char
  | _, [] => []
  | prevCased, c :: cs =>
    (if isAlphaC c then (if prevCased then lowerC c else upperC c) else c) ::
      pyTitleGo (isAlphaC c) cs

/-- Python `str.title`: a cased character following a non-cased one is upper-cased, any
other cased character is lower-cased. -/
def pyTitle (l : List Char) : List Char := pyTitleGo false l

/-- Python `str.strip` (whitespace at both ends removed). -/
def pyStrip (l : List Char) : List Char :=
  ((l.dropWhile isPySpace).reverse.dropWhile isPySpace).reverse

/-- The apostrophe character. -/
def apos : Char := Char.ofNat 39

/-- Python regex `\w`: letter, digit or underscore (ASCII). -/
def isWordC (c : Char) : Bool := isAlphaC c || isDigitC c || c = '_'

/-- A character matched by the source's token class `[\w\-\']`. -/
def isWordishC (c : Char) : Bool := isWordC c || c = '-' || c = apos

/-- Helper for `runs`: groups consecutive characters with the same value of `p`,
accumulating the current group in reverse. -/
def runsGo (p : Char → Bool) : Bool → List Char → List Char → List (List Char)
  | _, acc, [] => [acc.reverse]
  | k, acc, c :: rest =>
    if p c = k then runsGo p k (c :: acc) rest
    else acc.reverse :: runsGo p (p c) [c] rest

/-- Splits a character list into maximal runs on which `p` is constant.
With `p := fun c => !(isPySpace c)` this is Python's `re.findall(r'\S+|\s+', text)`;
with `p := isWordishC` it is `re.split(r'([^\w\-\']+)', token)` with empty edge
pieces dropped. -/
def runs (p : Char → Bool) : List Char → List (List Char)
  | [] => []
  | c :: rest => runsGo p (p c) [c] rest

/-! ### Python dict literals as association lists

Both correction tables in the source are dict literals containing some repeated
keys (each repetition binding the same value).  A Python dict literal keeps the
last binding of each key, at the position of its first occurrence. -/

/-- Python dict lookup on a literal's pair list: the last binding of the key. -/
def pyDictGet (pairs : List (String × String)) (k : String) : Option String :=
  (pairs.reverse.find? (fun p => p.1 == k)).map (fun p => p.2)

/-- Python dict key iteration order on a literal's pair list: first occurrences. -/
def pyDictKeys (pairs : List (String × String)) : List String :=
  (pairs.foldl (fun ks p => if ks.contains p.1 then ks else p.1 :: ks) []).reverse

/-- The `PHRASE_CORRECTIONS` dict literal of `dictionary_corrector.py`, as its source-order
pair list (lookup via `pyDictGet`). -/
def PHRASE_CORRECTIONS_SRC : List (String × String) := [
  ("departntn", "departemen"),
  ("departtmen", "departemen"),
  ("departnen", "departemen"),
  ("departmon", "departemen"),
  ("departomon", "departemen"),
  ("depatemen", "departemen"),
  ("dopartemen", "departemen"),
  ("departemn", "departemen"),
  ("deprtemen", "departemen"),
  ("dpartemen", "departemen"),
  ("departemem", "departemen"),
  ("departnen", "departemen"),
  ("pcaai", "pekerjaan"),
  ("pkaai", "pekerjaan"),
  ("pkerjaan", "pekerjaan"),
  ("pekrjaan", "pekerjaan"),
  ("pekerjan", "pekerjaan"),
  ("ptsyaai", "pekerjaan"),
  ("pekerjaa", "pekerjaan"),
  ("pokerjan", "pekerjaan"),
  ("pckerjaan", "pekerjaan"),
  ("pekcrjaan", "pekerjaan"),
  ("departntnptsyaai", "departemen pekerjaan umum"),
  ("departntnpcaai", "departemen pekerjaan umum"),
  ("departomenpekerjaan", "departemen pekerjaan umum"),
  ("camat", "djawatan"),
  ("caagtcigara", "gedung negara"),
  ("tenggara", "gedung negara"),
  ("pusatcaagtcigara", "pusat djawatan gedung negara"),
  ("pusat camat tenggara", "pusat djawatan gedung negara"),
  ("djawaton", "djawatan"),
  ("djawuten", "djawatan"),
  ("djwatan", "djawatan"),
  ("gecung", "gedung"),
  ("gedun", "gedung"),
  ("gsdung", "gedung"),
  ("negera", "negara"),
  ("nogara", "negara"),
  ("negora", "negara"),
  ("nfg", "negara"),
  ("ngara", "negara"),
  ("kantor angka", "keterangan"),
  ("angka penunjukan", "keterangan penunjukan"),
  ("penunjukan", "penunjukan"),
  ("penundjukan", "penunjukan"),
  ("jkrtn", "jakarta"),
  ("jakrta", "jakarta"),
  ("jakart", "jakarta"),
  ("jakarto", "jakarta"),
  ("jakartn", "jakarta"),
  ("jakartau", "jakarta"),
  ("djakrta", "djakarta"),
  ("jelan", "jalan"),
  ("jlan", "jalan"),
  ("jatan", "jalan"),
  ("jeln", "jalan"),
  ("krmat", "kramat"),
  ("krmet", "kramat"),
  ("kramet", "kramat"),
  ("krmnt", "kramat"),
  ("tgl", "tanggal"),
  ("bln", "bulan"),
  ("thn", "tahun"),
  ("th", "tahun"),
  ("djanuari", "januari"),
  ("danuari", "januari"),
  ("djanu", "januari"),
  ("januart", "januari"),
  ("januarl", "januari"),
  ("janvarl", "januari"),
  ("pebruari", "februari"),
  ("peb", "februari"),
  ("febr", "februari"),
  ("fobruari", "februari"),
  ("feruari", "februari"),
  ("februart", "februari"),
  ("mrt", "maret"),
  ("marot", "maret"),
  ("maret", "maret"),
  ("marct", "maret"),
  ("aprl", "april"),
  ("aprll", "april"),
  ("aprit", "april"),
  ("mol", "mei"),
  ("moi", "mei"),
  ("djuni", "juni"),
  ("junl", "juni"),
  ("junt", "juni"),
  ("djuli", "juli"),
  ("jull", "juli"),
  ("jult", "juli"),
  ("djull", "juli"),
  ("agustoes", "agustus"),
  ("agsts", "agustus"),
  ("agustns", "agustus"),
  ("agustua", "agustus"),
  ("aguatus", "agustus"),
  ("soptonbor", "september"),
  ("soptonber", "september"),
  ("soptember", "september"),
  ("septenbor", "september"),
  ("septonber", "september"),
  ("septenber", "september"),
  ("septembor", "september"),
  ("soptenbor", "september"),
  ("soptomber", "september"),
  ("septomber", "september"),
  ("scptember", "september"),
  ("soptembar", "september"),
  ("septamber", "september"),
  ("septembar", "september"),
  ("sopiembre", "september"),
  ("soptombor", "september"),
  ("sept", "september"),
  ("oktobor", "oktober"),
  ("oktobar", "oktober"),
  ("oktobet", "oktober"),
  ("octobor", "oktober"),
  ("octobar", "oktober"),
  ("okt", "oktober"),
  ("nopember", "november"),
  ("noombo", "november"),
  ("nopmber", "november"),
  ("novmber", "november"),
  ("novembor", "november"),
  ("novomber", "november"),
  ("novembcr", "november"),
  ("novamber", "november"),
  ("nov", "november"),
  ("desemb", "desember"),
  ("dec", "desember"),
  ("desembor", "desember"),
  ("desomber", "desember"),
  ("decembor", "desember"),
  ("desambor", "desember"),
  ("ketarangan", "keterangan"),
  ("ketrangan", "keterangan"),
  ("keterangn", "keterangan"),
  ("koterangan", "keterangan"),
  ("ketsraigan", "keterangan"),
  ("katerangan", "keterangan"),
  ("berllaku", "berlaku"),
  ("berlku", "berlaku"),
  ("bercgser", "bergesar"),
  ("rmah", "rumah"),
  ("runh", "rumah"),
  ("rumh", "rumah"),
  ("runah", "rumah"),
  ("tmpat", "tempat"),
  ("tempt", "tempat"),
  ("tompt", "tempat"),
  ("tinga1", "tinggal"),
  ("tingal", "tinggal"),
  ("tinggol", "tinggal"),
  ("citinggal", "ditinggalkan"),
  ("citinggol", "ditinggalkan"),
  ("ditinggal", "ditinggalkan"),
  ("ditempti", "ditempati"),
  ("ditempatl", "ditempati"),
  ("ditompti", "ditempati"),
  ("monciri", "menghuni"),
  ("monciari", "menghuni"),
  ("menciri", "menghuni"),
  ("mendirikan", "diberikan"),
  ("dibcrikn", "diberikan"),
  ("aibawah", "dibawah"),
  ("kpala", "kepala"),
  ("kepal", "kepala"),
  ("direkur", "direktur"),
  ("direktr", "direktur"),
  ("gicn", "bagian"),
  ("pantkat", "pangkat"),
  ("pantkatm", "pangkat"),
  ("pangkt", "pangkat"),
  ("dopartoron", "departemen"),
  ("dopartemen", "departemen"),
  ("departoron", "departemen"),
  ("gadji", "gaji"),
  ("pokol", "pokok"),
  ("seblan", "sebulan"),
  ("sbulan", "sebulan"),
  ("scbesr", "sebesar"),
  ("histri", "istri"),
  ("hiatri", "istri"),
  ("istr", "istri"),
  ("suam", "suami"),
  ("ank", "anak"),
  ("anaks", "anak"),
  ("anals", "anak"),
  ("tanaks", "anak"),
  ("kakeks", "kakak"),
  ("kalcak", "kakak"),
  ("halman", "halaman"),
  ("halamn", "halaman"),
  ("nomoa", "nomor"),
  ("nomr", "nomor"),
  ("nomer", "nomor"),
  ("nomer1", "nomor"),
  ("srat", "surat"),
  ("surt", "surat"),
  ("katp", "kartu"),
  ("pnid", "penunjukan"),
  ("monurut", "menurut"),
  ("bersangkutan", "bersangkutan"),
  ("mastoreoicig", "maryorejo"),
  ("mastorzooig", "maryorejo"),
  ("marrowj0j0", "martowijojo"),
  ("martowijojo", "martowijojo"),
  ("simnh", "simuh"),
  ("simnh", "simuh"),
  ("sumatra", "saudara"),
  ("maineh", "mainah"),
  ("sukatl", "sukati"),
  ("suwartt", "suwarti"),
  ("kasm.nem", "kasminem"),
  ("kasmnem", "kasminem"),
  ("sukatil", "sukati"),
  ("kotaoran", "kotamadya"),
  ("persowaan", "persewaan"),
  ("persowaen", "persewaan"),
  ("persowear", "persewaan"),
  ("porsowaan", "persewaan"),
  ("persetaan", "persewaan"),
  ("nognra", "negara"),
  ("negera", "negara"),
  ("nogrra", "negara"),
  ("palembang", "perbendaharaan"),
  ("ganda", "juanda"),
  ("djuanda", "juanda"),
  ("kebajoranbaru", "kebayoran baru"),
  ("kebajoranba", "kebayoran baru"),
  ("kebajoran", "kebayoran"),
  ("pembanto", "pembantu"),
  ("bondaiara", "bendahara"),
  ("perbendgharaan", "perbendaharaan"),
  ("irbcrdaharoin", "perbendaharaan"),
  ("marot", "maret"),
  ("lampiraz", "lampiran"),
  ("rugah", "rumah"),
  ("ruah", "rumah"),
  ("ruijah", "rupiah"),
  ("soratus", "seratus"),
  ("korata", "kepada"),
  ("kansor", "kantor"),
  ("strat", "surat"),
  ("conagian", "cabang"),
  ("tancgaz", "tanggal"),
  ("tancgal", "tanggal"),
  ("targgal", "tanggal"),
  ("diba jar", "dibayar"),
  ("lanns", "lunas"),
  ("dilunashe", "dilunaskan"),
  ("kotala", "kepala"),
  ("pondngatang", "pendapatan"),
  ("dongan", "dengan"),
  ("nonorangan", "menerangkan"),
  ("baiwa", "bahwa"),
  ("hiang", "yang"),
  ("toriota", "tersebut"),
  ("zorbon", "perbendaharaan"),
  ("daharaan", "perbendaharaan"),
  ("menberitahukan", "memberitahukan"),
  ("nemberitahukan", "memberitahukan"),
  ("monyerahkan", "menyerahkan"),
  ("noninggrlkan", "meninggalkan"),
  ("meningcalkan", "meninggalkan"),
  ("murgosongkan", "mengosongkan"),
  ("nengosonslan", "mengosongkan"),
  ("morgalihkar", "mengalihkan"),
  ("monclihara", "memelihara"),
  ("nonporbaiki", "memperbaiki"),
  ("nenperbaiki", "memperbaiki"),
  ("nenanccung", "menanggung"),
  ("nicrarggurg", "menanggung"),
  ("ditenpati", "ditempati"),
  ("ditompati", "ditempati"),
  ("diturjuk", "ditunjuk"),
  ("ditunyuk", "ditunjuk"),
  ("porusakan", "kerusakan"),
  ("korusakan", "kerusakan"),
  ("kckliruan", "kekeliruan"),
  ("kosnlahan", "kesalahan"),
  ("kelalaiannya", "kelalaiannya"),
  ("kclaliarrja", "kelalaiannya"),
  ("bogawai", "pegawai"),
  ("pogawai", "pegawai"),
  ("kopala", "kepala"),
  ("kopnla", "kepala"),
  ("fihak", "pihak"),
  ("jogawai", "pegawai"),
  ("jabatarrja", "jabatannya"),
  ("jabatannya", "jabatannya"),
  ("dar1", "dari"),
  ("kepeda", "kepada"),
  ("roauel", "pasuruh"),
  ("konala", "kepala"),
  ("tetap", "telepon"),
  ("turat", "surat"),
  ("sabtu", "satu"),
  ("appr", "april"),
  ("sowa", "sewa"),
  ("sowe", "sewa"),
  ("boli", "beli"),
  ("bol1", "beli"),
  ("tolah", "telah"),
  ("scbagai", "sebagai"),
  ("sobagian", "sebagian"),
  ("sobgainara", "sebagaimana"),
  ("sobagaimana", "sebagaimana"),
  ("caimana", "sebagaimana"),
  ("wrtul", "untuk"),
  ("urtuk", "untuk"),
  ("intuk", "untuk"),
  ("untul", "untuk"),
  ("kontraksewa", "kontrak-sewa-beli"),
  ("kontraksewa-beli", "kontrak-sewa-beli"),
  ("kontrak-sewa", "kontrak-sewa-beli"),
  ("kontraksewabeli", "kontrak-sewa-beli"),
  ("kontrak sewa", "kontrak-sewa-beli")
]

/-- The `MULTI_WORD_CORRECTIONS` dict literal of `dictionary_corrector.py`, as its
source-order pair list (lookup via `pyDictGet`, keys via `pyDictKeys`). -/
def MULTI_WORD_CORRECTIONS_SRC : List (String × String) := [
  ("departemen pekerjaan umum pan tenaca", "departemen pekerjaan umum dan tenaga"),
  ("departemen pekerjaan umum pan tenaga", "departemen pekerjaan umum dan tenaga"),
  ("departemen pekerjaan umum dan tenaca", "departemen pekerjaan umum dan tenaga"),
  ("departemen pekerjaan umum pun tenaga", "departemen pekerjaan umum dan tenaga"),
  ("departemen ptsyaai dan tenaga", "departemen pekerjaan umum dan tenaga"),
  ("departntnptsyaai dan tenaga", "departemen pekerjaan umum dan tenaga"),
  ("departntnptsyaai pan tenaca", "departemen pekerjaan umum dan tenaga"),
  ("departntnptsyaai pan tenaga", "departemen pekerjaan umum dan tenaga"),
  ("departntnptsyaai dan tenaca", "departemen pekerjaan umum dan tenaga"),
  ("departntnptsjaai pan tenaca", "departemen pekerjaan umum dan tenaga"),
  ("departntnptsjaai pan tenaga", "departemen pekerjaan umum dan tenaga"),
  ("departntnptsyaai", "departemen pekerjaan umum"),
  ("departntnptsjaai", "departemen pekerjaan umum"),
  ("departemen pcaai dan tenaga", "departemen pekerjaan umum dan tenaga"),
  ("departma perumahan", "departemen perumahan"),
  ("dopartemen pekerjaan", "departemen pekerjaan"),
  ("departemenpekerjaan", "departemen pekerjaan"),
  ("departemen toal tan tenaca", "departemen pekerjaan umum dan tenaga"),
  ("departemen toal", "departemen pekerjaan umum"),
  ("pusat caa tenggara", "pusat djawatan gedung negara"),
  ("pusat caa tenagara", "pusat djawatan gedung negara"),
  ("pusat camat tenggara", "pusat djawatan gedung negara"),
  ("pusat camat tenagara", "pusat djawatan gedung negara"),
  ("pusat caamat tanggara", "pusat djawatan gedung negara"),
  ("pusat caagtcigara", "pusat djawatan gedung negara"),
  ("pusat caa gtgigara", "pusat djawatan gedung negara"),
  ("pusat caa gtgigara", "pusat djawatan gedung negara"),
  ("pusat cap gtgigara", "pusat djawatan gedung negara"),
  ("pusat jawa gtgigara", "pusat djawatan gedung negara"),
  ("pusat tjaa gtgigara", "pusat djawatan gedung negara"),
  ("pusat gtgigara", "pusat djawatan gedung negara"),
  ("pusat tala gtgigara", "pusat djawatan gedung negara"),
  ("pusat tala", "pusat djawatan"),
  ("pusat djawatan gedung2 negara", "pusat djawatan gedung negara"),
  ("pusat jawatan gedung negara", "pusat djawatan gedung negara"),
  ("kater angan peninyutan", "keterangan penunjukan"),
  ("kater angan peninyutan", "keterangan penunjukan"),
  ("kater angan penunjukan", "keterangan penunjukan"),
  ("katerangan peninjukan", "keterangan penunjukan"),
  ("katerangan penundjukan", "keterangan penunjukan"),
  ("keterangan penundjukan", "keterangan penunjukan"),
  ("kantor angka penunjukan", "keterangan penunjukan"),
  ("kartu angka penunjukan", "keterangan penunjukan"),
  ("katp angan pnid jukyan", "keterangan penunjukan"),
  ("kater angan pnid juanda", "keterangan penunjukan"),
  ("kep angan pnid utan", "keterangan penunjukan"),
  ("kater angan peninyutan", "keterangan penunjukan"),
  ("kater angan", "keterangan"),
  ("peninyutan", "penunjukan"),
  ("kemter angan", "keterangan"),
  ("kep angan", "keterangan"),
  ("rumah neg ara", "rumah negara"),
  ("rumah negera", "rumah negara"),
  ("rumah ng utara", "rumah negara"),
  ("rumah nfg ara", "rumah negara"),
  ("untul monciari rumah", "untuk menghuni rumah"),
  ("untuk monciari rumah", "untuk menghuni rumah"),
  ("untuk monciri runah", "untuk menghuni rumah"),
  ("bercgs-r-an surat", "berdasarkan surat"),
  ("barcgs-r-an surat", "berdasarkan surat"),
  ("berdasar-an surat", "berdasarkan surat"),
  ("keterangan lantai", "keterangan lain-lain"),
  ("ketsraigan lantai", "keterangan lain-lain"),
  ("d juml.h penghuni", "djumlah penghuni"),
  ("d jumlh penghuni", "djumlah penghuni"),
  ("juml.h penghuni", "djumlah penghuni"),
  ("i d juml.h pengh", "jumlah penghuni"),
  ("rum.h monurut", "rumah menurut"),
  ("jalan krmat", "jalan kramat"),
  ("jelan kramat", "jalan kramat"),
  ("jelan krmat", "jalan kramat"),
  ("jlan kramat", "jalan kramat"),
  ("jlan krmat", "jalan kramat"),
  ("djalan kramat", "jalan kramat"),
  ("djalan krmat", "jalan kramat"),
  ("jl.ir.h.juanda", "jl. ir. h. juanda"),
  ("j.ir.h.juanda", "jl. ir. h. juanda"),
  ("kantor pembagian bendahara negara", "kantor perbendaharaan negara"),
  ("konala bendahara", "kepala bendahara"),
  ("kantor mpet zorbon", "kantor pusat perbendaharaan"),
  ("krmat kantor bendahara", "kepada kantor bendahara"),
  ("surat keterangan", "surat keterangan"),
  ("surat=keteranga", "surat keterangan"),
  ("surat putusan", "surat putusan"),
  ("surat putusen", "surat putusan"),
  ("departemen luar negeri", "departemen luar negeri"),
  ("enam pertanian pegawai", "badan kepegawaian"),
  ("enam peraturan pegawai", "badan kepegawaian"),
  ("enam senin", "badan"),
  ("menteri pekerjaan umum dan tenaga", "menteri pekerjaan umum dan tenaga"),
  ("menteri pekerjaan umur dan tenaga", "menteri pekerjaan umum dan tenaga"),
  ("kepala pusat jawatan", "kepala pusat jawatan"),
  ("konala pusat jawatan", "kepala pusat jawatan"),
  ("kepala jawatan gedung", "kepala jawatan gedung"),
  ("konala jawatan gedung", "kepala jawatan gedung"),
  ("konala jawa tan", "kepala jawatan"),
  ("konala jawatan", "kepala jawatan"),
  ("konala bagian", "kepala bagian"),
  ("sebagai lampiran dar 1", "sebagai lampiran dari 1"),
  ("sebagai lampiran dar", "sebagai lampiran dari"),
  ("pasuruh kepala", "pesuruh kepala"),
  ("pasuruh", "pesuruh"),
  ("departemen/wta", "departemen/..."),
  ("untuk menghuni rumah dil.ianat/a", "untuk menghuni rumah negara"),
  ("untuk menghuni rumah dil.ianat", "untuk menghuni rumah negara"),
  ("setelah citinggol", "setelah ditinggal"),
  ("setelah cwtinggal", "setelah ditinggal"),
  ("d jika rumah ten", "dan jika rumah ter"),
  ("sebut dits bolum", "sebut belum"),
  ("bolum dapat", "belum dapat"),
  ("dits bolum", "belum"),
  ("keterangan yang bersangkutan ter", "keterangan yang bersangkutan ter"),
  ("diri cri", "diri dari"),
  ("umur !keterangen", "umur keterangen"),
  ("umur keterangen", "umur keterangan"),
  ("umur keterangen", "umur keterangan"),
  ("konala urnsan", "kepala urusan"),
  ("kepnla", "kepala"),
  ("sic scbulan", "sewa sebulan"),
  ("roauel", "pesuruh"),
  ("cori surat", "dari surat"),
  ("kopada telp", "pada tanggal"),
  ("katerangan ini beru", "keterangan ini berlaku"),
  ("tidal berlalu", "tidak berlaku"),
  ("dopartoron/w.t", "departemen/..."),
  ("4tas", "atas"),
  ("tbtoah", "tersebut"),
  ("dikearkan", "dikeluarkan"),
  ("pesurnh", "pesuruh"),
  ("dil.ianat/a", "dinas"),
  ("dil.ianat", "dinas"),
  ("sntenhar", "september"),
  ("memutuskan", "memutuskan"),
  ("berkehendal", "dikehendaki"),
  ("dikehendaki", "dikehendaki"),
  ("menimbang", "menimbang"),
  ("mengingat", "mengingat"),
  ("menetapkan", "menetapkan"),
  ("yang bertanda tangan", "yang bertanda tangan"),
  ("bertanda tangan dibawah ini", "bertanda tangan dibawah ini"),
  ("dengan ini ruangan", "dengan ini menyatakan"),
  ("berkepentingan tangan", "berkepentingan"),
  ("yang berkepentingan", "yang berkepentingan"),
  ("dibuat jrn lain", "dibuat urusan lain"),
  ("penunyukan runah", "penunjukan rumah"),
  ("penunjukan runah", "penunjukan rumah"),
  ("penghuni runah", "penghuni rumah"),
  ("sewa bali rumah", "sewa beli rumah"),
  ("sewa bot rumah", "sewa beli rumah"),
  ("monciari rumah", "menghuni rumah"),
  ("runah negeri", "rumah negeri"),
  ("ponyerakan runah", "penyerahan rumah"),
  ("pegawai negeri", "pegawai negeri"),
  ("juru pesurnh", "juru pesuruh"),
  ("juru tuiis", "juru tulis"),
  ("pasuruh kepala", "pesuruh kepala"),
  ("pasuruh", "pesuruh"),
  ("pesurnh", "pesuruh"),
  ("pendapatan negara", "pendapatan negara"),
  ("daftaran gaji", "daftar gaji"),
  ("daftaran negara", "perbendaharaan negara"),
  ("da wun", "dua puluh"),
  ("da puluh", "dua puluh"),
  ("tiga wun", "tiga puluh"),
  ("empat wun", "empat puluh"),
  ("lima wun", "lima puluh"),
  ("da wun", "dua puluh"),
  ("da puluh", "dua puluh"),
  ("tiga wun", "tiga puluh"),
  ("empat wun", "empat puluh"),
  ("lima wun", "lima puluh"),
  ("dua plh", "dua puluh"),
  ("plh", "puluh"),
  ("kelima ribu", "lima ribu"),
  ("ia ibu", "lima ribu"),
  ("ia ribu", "lima ribu"),
  ("ibu surat", "ribu seratus"),
  ("ibu rupiah", "ribu rupiah"),
  ("surat rupiah", "ratus rupiah"),
  ("soratus", "seratus"),
  ("rupijah", "rupiah"),
  ("ruijah", "rupiah"),
  ("sobosar", "sebesar"),
  ("torhitung mulai", "terhitung mulai"),
  ("mulai dari tanggal", "mulai dari tanggal"),
  ("selama pegawai", "selama pegawai"),
  ("suaaptaada", ""),
  ("suaaaaaada", ""),
  ("daaaaaaa", ""),
  ("ssaaaaaa", ""),
  ("eepp", ""),
  ("eeppe", ""),
  ("teeppe", ""),
  ("xrkkexa", ""),
  ("xrkkexax", ""),
  ("monurut", "menurut"),
  ("undang2", "undang-undang"),
  ("undang-2", "undang-undang"),
  ("lembaran negara", "lembaran negara"),
  ("lembazan negara", "lembaran negara"),
  ("kotapraja", "kotamadya"),
  ("cipto karyawan", "cipta karya"),
  ("ciptokaryawan", "cipta karya"),
  ("djenderal", "jenderal"),
  ("djendral", "jenderal"),
  ("djend", "jenderal"),
  ("agraria", "agraria"),
  ("agaria", "agraria"),
  ("agar", "agraria"),
  ("scwa-beli", "sewa-beli"),
  ("sowa-beli", "sewa-beli"),
  ("scwabeli", "sewa-beli"),
  ("penjawa-beli", "penjualan"),
  ("pendjajan", "penjualan"),
  ("kepu tusan", "keputusan"),
  ("kcputusan", "keputusan"),
  ("koputusan", "keputusan"),
  ("salinan", "salinan"),
  ("sallnan", "salinan"),
  ("salfnan", "salinan"),
  ("disampaiknn", "disampaikan"),
  ("disampaikan", "disampaikan"),
  ("disampikan", "disampaikan"),
  ("sebagainana", "sebagaimana"),
  ("mestinya", "mestinya"),
  ("mostlnya", "mestinya"),
  ("dikemudian", "di kemudian"),
  ("bokoman", "bogor"),
  ("hormat", "hormat"),
  ("hrrmat", "hormat"),
  ("krmat", "hormat"),
  ("anggaran belanya", "anggaran belanja"),
  ("belanya", "belanja"),
  ("teiah", "telah"),
  ("jakartayng", "jakarta, 19"),
  ("diba jar", "dibayar"),
  ("di bajar", "dibayar"),
  ("lunasnia", "lunasnya"),
  ("dibajar", "dibayar"),
  ("pembajaran", "pembayaran"),
  ("penyualan", "penjualan"),
  ("sri", "seksi"),
  ("sic", "seksi"),
  ("jaksra", "jakarta"),
  ("jakartau", "jakarta"),
  ("manado", "manado"),
  ("demang buruk", "dewan"),
  ("pemerin", "pemeriksa"),
  ("istri", "listrik")
]

/-- The `KAMUS_DOKUMEN` set literal of `dictionary_corrector.py`, in source order
(the set's own iteration order is unspecified; only membership and fuzzy scores are used). -/
def KAMUS_DOKUMEN_BASE : List String := [
  "departemen",
  "kementerian",
  "direktorat",
  "dirjen",
  "badan",
  "lembaga",
  "kantor",
  "dinas",
  "pusat",
  "cabang",
  "wilayah",
  "jawatan",
  "djawatan",
  "sekretariat",
  "inspektorat",
  "biro",
  "bagian",
  "subbagian",
  "seksi",
  "pekerjaan",
  "umum",
  "tenaga",
  "kerja",
  "keuangan",
  "pendidikan",
  "kesehatan",
  "pertanian",
  "perhubungan",
  "perindustrian",
  "kebudayaan",
  "perdagangan",
  "sosial",
  "agama",
  "dalam",
  "negeri",
  "luar",
  "hankam",
  "pertahanan",
  "keamanan",
  "kehakiman",
  "penerangan",
  "transmigrasi",
  "surat",
  "keputusan",
  "keterangan",
  "peraturan",
  "undang",
  "penetapan",
  "nomor",
  "tanggal",
  "perihal",
  "lampiran",
  "tembusan",
  "petikan",
  "ditandatangani",
  "ditetapkan",
  "menimbang",
  "mengingat",
  "memutuskan",
  "menetapkan",
  "memperhatikan",
  "membaca",
  "mendengar",
  "menyatakan",
  "pertama",
  "kedua",
  "ketiga",
  "keempat",
  "kelima",
  "keenam",
  "halaman",
  "pasal",
  "ayat",
  "butir",
  "huruf",
  "angka",
  "direktur",
  "kepala",
  "wakil",
  "sekretaris",
  "bendahara",
  "ketua",
  "pegawai",
  "karyawan",
  "staf",
  "pejabat",
  "menteri",
  "presiden",
  "gubernur",
  "bupati",
  "walikota",
  "camat",
  "lurah",
  "wedana",
  "asisten",
  "ajudan",
  "inspektur",
  "komisaris",
  "administrator",
  "pangkat",
  "golongan",
  "ruang",
  "tingkat",
  "eselon",
  "jalan",
  "gedung",
  "kantor",
  "rumah",
  "negara",
  "daerah",
  "kramat",
  "jakarta",
  "bandung",
  "surabaya",
  "semarang",
  "yogyakarta",
  "medan",
  "palembang",
  "makassar",
  "manado",
  "denpasar",
  "pontianak",
  "banjarmasin",
  "provinsi",
  "kabupaten",
  "kecamatan",
  "kelurahan",
  "desa",
  "kampung",
  "blok",
  "nomor",
  "lantai",
  "tingkat",
  "gang",
  "lorong",
  "kompleks",
  "timur",
  "barat",
  "utara",
  "selatan",
  "tengah",
  "pusat",
  "jawa",
  "sumatra",
  "sumatera",
  "kalimantan",
  "sulawesi",
  "papua",
  "bali",
  "nusa",
  "tenggara",
  "maluku",
  "irian",
  "borneo",
  "gaji",
  "tunjangan",
  "pokok",
  "rupiah",
  "pembayaran",
  "honorarium",
  "anggaran",
  "belanja",
  "pendapatan",
  "pajak",
  "iuran",
  "pungutan",
  "sewa",
  "sebulan",
  "setahun",
  "bulanan",
  "tahunan",
  "cicilan",
  "januari",
  "februari",
  "maret",
  "april",
  "mei",
  "juni",
  "juli",
  "agustus",
  "september",
  "oktober",
  "november",
  "desember",
  "nopember",
  "pebruari",
  "djanuari",
  "agustus",
  "tahun",
  "bulan",
  "hari",
  "tanggal",
  "mulai",
  "sampai",
  "berakhir",
  "minggu",
  "senin",
  "selasa",
  "rabu",
  "kamis",
  "jumat",
  "sabtu",
  "berlaku",
  "tidak",
  "sudah",
  "belum",
  "dapat",
  "harus",
  "bersangkutan",
  "wajib",
  "sesuai",
  "berdasarkan",
  "sebagaimana",
  "tersebut",
  "terlampir",
  "dibawah",
  "diatas",
  "berikut",
  "demikian",
  "bahwa",
  "agar",
  "supaya",
  "setelah",
  "ditinggalkan",
  "ditempati",
  "dihuni",
  "digunakan",
  "nama",
  "umur",
  "jenis",
  "kelamin",
  "laki",
  "perempuan",
  "wanita",
  "pria",
  "istri",
  "suami",
  "anak",
  "ayah",
  "ibu",
  "kakak",
  "adik",
  "nenek",
  "kakek",
  "lahir",
  "tempat",
  "tanggal",
  "alamat",
  "pekerjaan",
  "agama",
  "bangsa",
  "penghuni",
  "anggota",
  "keluarga",
  "orang",
  "jiwa",
  "rumah",
  "tanah",
  "bangunan",
  "pekarangan",
  "persil",
  "kavling",
  "tinggal",
  "tempat",
  "lama",
  "baru",
  "luas",
  "meter",
  "persegi",
  "kamar",
  "ruang",
  "dapur",
  "kamar mandi",
  "garasi",
  "teras",
  "menyetujui",
  "menyerahkan",
  "menerima",
  "mengajukan",
  "memohon",
  "memberikan",
  "menunjuk",
  "mengangkat",
  "memberhentikan",
  "memindahkan",
  "menghuni",
  "mendirikan",
  "membangun",
  "memperbaiki",
  "merawat",
  "yang",
  "dan",
  "atau",
  "untuk",
  "dari",
  "dengan",
  "pada",
  "oleh",
  "ini",
  "itu",
  "adalah",
  "sebagai",
  "kepada",
  "terhadap",
  "tentang",
  "dalam",
  "luar",
  "atas",
  "bawah",
  "sebelum",
  "sesudah",
  "antara",
  "akan",
  "telah",
  "sedang",
  "masih",
  "juga",
  "serta",
  "maupun",
  "besar",
  "kecil",
  "tinggi",
  "rendah",
  "panjang",
  "pendek",
  "lebar",
  "baru",
  "lama",
  "tua",
  "muda",
  "baik",
  "buruk",
  "benar",
  "salah",
  "penunjukan",
  "penghunian",
  "penggunaan",
  "pemeliharaan",
  "penyerahan",
  "hak",
  "kewajiban",
  "syarat",
  "ketentuan",
  "larangan",
  "sanksi",
  "kontrak-sewa-beli",
  "kontrak",
  "sewa-beli",
  "tjara-sewa-beli",
  "cara-sewa-beli",
  "djawatan",
  "djakarta",
  "djasa",
  "djuru",
  "adjudan",
  "ajudan",
  "djalan",
  "djl",
  "djend",
  "djenderal",
  "djoeragan",
  "wedana",
  "demang",
  "mantri",
  "djuru tulis",
  "djuru bayar",
  "persewaan",
  "perowaan",
  "rumah dinas",
  "rumah negara",
  "angka",
  "pnid",
  "kartu",
  "tjap",
  "stempel",
  "meterai",
  "gouvernement",
  "resident",
  "regentschap",
  "afdeeling",
  "staatblad",
  "bijblad",
  "besluit",
  "resolutie",
  "ordonnantie",
  "burgerlijke",
  "stand",
  "akta",
  "akte",
  "salinan",
  "turunan",
  "nip",
  "karpeg",
  "pensiun",
  "janda",
  "duda",
  "yatim",
  "piatu",
  "kepolisian",
  "kejaksaan",
  "pengadilan",
  "mahkamah",
  "agung",
  "sipil",
  "militer",
  "abri",
  "tni",
  "polri",
  "purnawirawan",
  "purn",
  "alm",
  "almarhum",
  "bin",
  "binti",
  "alias",
  "dkk",
  "qq",
  "cs",
  "tertanda",
  "ttd",
  "an",
  "aub",
  "nb",
  "tembusan",
  "lampiran",
  "perihal",
  "hal",
  "yth",
  "yth.",
  "bapak",
  "ibu",
  "sdr",
  "sdri",
  "pjo",
  "pj",
  "plh",
  "plt",
  "ub",
  "u.b.",
  "an.",
  "a.n.",
  "daerah",
  "khusus",
  "ibukota",
  "dki",
  "raya",
  "kotamadya",
  "kabupaten",
  "propinsi",
  "provinsi",
  "kodya",
  "kab",
  "kec",
  "kel",
  "jalan",
  "jl",
  "jln",
  "gang",
  "gg",
  "rt",
  "rw",
  "no",
  "nomor"
]

/-- The `NAMA_INDONESIA` set literal of `dictionary_corrector.py`, in source order. -/
def NAMA_INDONESIA : List String := [
  "sujono",
  "suparman",
  "hartono",
  "bambang",
  "joko",
  "budi",
  "agus",
  "ahmad",
  "muhammad",
  "mohamad",
  "moh",
  "abdul",
  "ali",
  "hasan",
  "umar",
  "udin",
  "didi",
  "dede",
  "asep",
  "ujang",
  "yanto",
  "sugeng",
  "sutrisno",
  "supardi",
  "suradi",
  "sudirman",
  "sudarno",
  "sukardi",
  "suharto",
  "sukarno",
  "slamet",
  "rosidi",
  "ridwan",
  "rahman",
  "pudjo",
  "parto",
  "parman",
  "paijo",
  "ngadiman",
  "ngadino",
  "mulyono",
  "mulyo",
  "karno",
  "kardi",
  "kamto",
  "darmo",
  "darmono",
  "cipto",
  "ciptono",
  "bejo",
  "harjo",
  "harjono",
  "wongso",
  "kasno",
  "kasiman",
  "kasman",
  "ngatirah",
  "kasminem",
  "sriati",
  "sriyati",
  "sri",
  "siti",
  "dewi",
  "ratna",
  "yanti",
  "kartini",
  "aminah",
  "fatimah",
  "aisha",
  "aisyah",
  "nurhaliza",
  "sumiati",
  "sumirah",
  "sumini",
  "suparni",
  "supami",
  "tuminah",
  "tumini",
  "waginah",
  "waginem",
  "warsinah",
  "warsini",
  "parmi",
  "parmini",
  "parminah",
  "sarmi",
  "sarmini",
  "sarminah",
  "lastri",
  "lestari",
  "kasmirah",
  "kasmini",
  "kasminah",
  "wagiyem",
  "wagirah",
  "sutinah",
  "sutini",
  "sutinem",
  "ngatini",
  "ngatinem",
  "rubiyah",
  "rubiyem",
  "satinem",
  "satinah",
  "tumiyem",
  "marni",
  "mainah",
  "sukati",
  "suwarti",
  "riswati",
  "ngatirah",
  "kasminem",
  "sujono",
  "kasman",
  "sriati",
  "suharto",
  "sukati",
  "marhadi",
  "suparto",
  "sumarto",
  "ng",
  "raden",
  "rd",
  "mas",
  "mbak",
  "nyi",
  "ki",
  "haji",
  "hajjah",
  "hadji",
  "hadjah",
  "tuan",
  "nyonya",
  "nona",
  "rr",
  "krt",
  "kra",
  "roro",
  "gusti",
  "andi",
  "daeng",
  "oei",
  "tan",
  "liem",
  "kwee",
  "prawirodirjo",
  "prawiro",
  "mangku",
  "mangkunegara",
  "paku",
  "pakubuwono",
  "hamengku",
  "hamengkubuwono",
  "sosro",
  "sosrodiningrat",
  "gondokusumo"
]

/-- The dictionary used for membership tests and fuzzy lookup: the module-level
`KAMUS_DOKUMEN.update(NAMA_INDONESIA)` merge. -/
def KAMUS_DOKUMEN : List String := KAMUS_DOKUMEN_BASE ++ NAMA_INDONESIA

/-! ### Fuzzy matching: `rapidfuzz.fuzz.ratio` and `process.extractOne`

`fuzz.ratio` is the normalized indel similarity
`100 · (|a|+|b| − dist_indel(a,b)) / (|a|+|b|) = 200 · lcs(a,b) / (|a|+|b|)`.
We compute the longest-common-subsequence length by the usual row dynamic
programming (kept linear so that concrete theorems evaluate in the kernel). -/

/-- One row step of the LCS dynamic program.  `prevRow` holds the previous row
`[p₀, …, pₙ]` (first entry aligned with the current column's diagonal) and
`left` the entry just computed on the current row; the produced list is the
current row without its leading `0`. -/
def lcsStepGo (ca : Char) : List Char → List Nat → Nat → List Nat
  | cb :: bs, p0 :: ps, left =>
    let v := if ca = cb then p0 + 1 else max (ps.headD 0) left
    v :: lcsStepGo ca bs ps v
  | _, _, _ => []

/-- Longest-common-subsequence length of two character lists. -/
def lcsLen (a b : List Char) : Nat :=
  let row0 := List.replicate (b.length + 1) 0
  (a.foldl (fun row ca => 0 :: lcsStepGo ca b row 0) row0).getLastD 0

/-- `rapidfuzz.fuzz.ratio` as an exact rational: `200·lcs/(|a|+|b|)`
(and `100` when both strings are empty, as in rapidfuzz).  Built with `mkRat`,
which performs exactly this division, so that kernel evaluation does not go
through the cast instances. -/
def fuzzRatio (a b : List Char) : ℚ :=
  if a.length + b.length = 0 then 100
  else mkRat (200 * lcsLen a b) (a.length + b.length)

/-- One fold step of `process.extractOne`: a candidate scoring at least the
cutoff replaces the current best only when strictly better (so among equal
scores the earliest candidate is kept). -/
def extractStep (q : List Char) (cutoff : ℚ) (best : Option (String × ℚ)) (w : String) :
    Option (String × ℚ) :=
  let s := fuzzRatio q w.data
  if cutoff ≤ s then
    match best with
    | none => some (w, s)
    | some (bw, bs) => if bs < s then some (w, s) else some (bw, bs)
  else best

/-- `rapidfuzz.process.extractOne(q, choices, scorer=fuzz.ratio, score_cutoff=cutoff)`:
the first candidate attaining the maximal score, provided that score reaches the
cutoff; `none` otherwise. -/
def extractOne (q : List Char) (choices : List String) (cutoff : ℚ) : Option String :=
  (choices.foldl (extractStep q cutoff) none).map (fun p => p.1)

/-! ### `dictionary_corrector.py`: word-level correction -/

/-- `_is_valid_word`: at least 3 characters, no digit, and all alphabetic after
removing hyphens and apostrophes (Python's `''.isalpha()` is false, hence the
non-emptiness requirement on the stripped word). -/
def _is_valid_wordL (kata : List Char) : Bool :=
  !kata.isEmpty && decide (3 ≤ kata.length) && !kata.any isDigitC &&
    (let stripped := kata.filter (fun c => !(c = '-' || c = apos))
     !stripped.isEmpty && stripped.all isAlphaC)

/-- `_is_valid_word` on `String`. -/
def _is_valid_word (kata : String) : Bool := _is_valid_wordL kata.data

/-- The case-style adjustment shared by `correct_word` and `_find_best_match`:
all-upper input gives an upper-cased replacement, an upper-case first letter
gives a capitalized replacement, otherwise the stored replacement is returned. -/
def caseAdjust (kata corrected : List Char) : List Char :=
  if pyIsUpper kata then pyUpperL corrected
  else if (match kata with | c :: _ => isUpperC c | [] => false) then pyCapitalize corrected
  else corrected

/-- `_find_best_match(kata, threshold)`: no correction for words already in the
dictionary; otherwise the best fuzzy candidate at or above the cutoff,
case-adjusted to the input (`HAS_RAPIDFUZZ` modelled as true). -/
def _find_best_matchL (kata : List Char) (threshold : ℚ) : Option (List Char) :=
  let kl := pyLowerL kata
  if KAMUS_DOKUMEN.contains (String.mk kl) then none
  else
    match extractOne kl KAMUS_DOKUMEN threshold with
    | some m => some (caseAdjust kata m.data)
    | none => none

/-- `correct_word`: exact phrase-table lookup first (case-adjusted), then fuzzy
matching for valid words. -/
def correct_wordL (kata : List Char) : List Char :=
  if kata.isEmpty then kata
  else
    let kl := pyLowerL kata
    match pyDictGet PHRASE_CORRECTIONS_SRC (String.mk kl) with
    | some v => caseAdjust kata v.data
    | none =>
      if !_is_valid_wordL kata then kata
      else
        match _find_best_matchL kata 65 with
        | some c => c
        | none => kata

/-- `correct_word` on `String`. -/
def correct_word (kata : String) : String := String.mk (correct_wordL kata.data)

/-! ### `_apply_multi_word_corrections`

The source builds, for each table key, the pattern
`re.escape(key).replace(r'\ ', ' ').replace(' ', r'\s+')` compiled with
`re.IGNORECASE`, i.e. every non-space character matches itself
case-insensitively and every space matches one or more whitespace characters.
No key contains consecutive, leading or trailing spaces, so greedy matching of
each whitespace run is exact.  Keys are applied longest first
(`sorted(keys, key=len, reverse=True)`, a stable descending sort), each via a
left-to-right non-overlapping substitution whose replacement case style is
computed from the matched span. -/

/-- One element of a compiled multi-word pattern. -/
inductive MElem where
  | lit (c : Char)
  | ws
deriving DecidableEq

/-- Compile a table key: spaces become `\s+`, other characters lower-cased literals. -/
def toPattern (key : List Char) : List MElem :=
  key.map fun c => if c = ' ' then MElem.ws else MElem.lit (lowerC c)

/-- Match a compiled pattern against the start of `xs`, returning the number of
characters consumed.  Literals compare case-insensitively; `ws` consumes a
maximal non-empty whitespace run. -/
def matchPat : List MElem → List Char → Option Nat
  | [], _ => some 0
  | MElem.lit c :: ps, x :: xs =>
    if lowerC x = c then (matchPat ps xs).map (· + 1) else none
  | MElem.lit _ :: _, [] => none
  | MElem.ws :: ps, xs =>
    let run := xs.takeWhile isPySpace
    if run.isEmpty then none
    else (matchPat ps (xs.drop run.length)).map (· + run.length)

/-- `re.sub`-style scan, paced by a fuel bounding the number of scan steps
(every step either consumes a matched span of at least one character or moves
past one character, so `length + 1` fuel is always enough): at each position
try the pattern; on a match, emit `rep` applied to the matched span and
continue after it, otherwise keep the character and move on. -/
def subScanGo (pat : List MElem) (rep : List Char → List Char) : Nat → List Char → List Char
  | 0, l => l
  | _, [] => []
  | fuel + 1, c :: rest =>
    match matchPat pat (c :: rest) with
    | some n =>
      if n = 0 then c :: subScanGo pat rep fuel rest
      else rep ((c :: rest).take n) ++ subScanGo pat rep fuel ((c :: rest).drop n)
    | none => c :: subScanGo pat rep fuel rest

/-- `re.sub` of one compiled multi-word pattern over a text. -/
def subScan (pat : List MElem) (rep : List Char → List Char) (l : List Char) : List Char :=
  subScanGo pat rep (l.length + 1) l

/-- The replacer of `_apply_multi_word_corrections`: case style from the matched
span (`upper` / `title` / as stored). -/
def multiReplacer (rep : List Char) (span : List Char) : List Char :=
  if pyIsUpper span then pyUpperL rep
  else if (match span with | c :: _ => isUpperC c | [] => false) then pyTitle rep
  else rep

/-- Dedup pass over a dict literal's pairs, processed left to right: a repeated
key updates the value of its existing entry in place, a fresh key is prepended
(so the accumulator holds first occurrences in reverse order, carrying each
key's length to keep kernel evaluation cheap). -/
def dictPairsGo : List (Nat × String × String) → List (String × String) →
    List (Nat × String × String)
  | acc, [] => acc
  | acc, p :: ps =>
    let n := p.1.length
    if acc.any (fun q => q.1 == n && q.2.1 == p.1) then
      dictPairsGo (acc.map (fun q => if q.1 == n && q.2.1 == p.1 then (q.1, q.2.1, p.2) else q)) ps
    else dictPairsGo ((n, p.1, p.2) :: acc) ps

/-- Stable insertion into a list sorted by descending cached key length
(ties keep earlier elements first). -/
def insertByLen (x : Nat × String × String) :
    List (Nat × String × String) → List (Nat × String × String)
  | [] => [x]
  | y :: ys => if y.1 ≤ x.1 then x :: y :: ys else y :: insertByLen x ys

/-- Stable descending sort by cached key length
(`sorted(keys, key=len, reverse=True)`). -/
def sortByLenDesc : List (Nat × String × String) → List (Nat × String × String)
  | [] => []
  | x :: xs => insertByLen x (sortByLenDesc xs)

/-- The multi-word table exactly as the source iterates it: the dict literal's
unique keys (first-occurrence order, last-bound value — every repeated key in
the literal rebinds the same value) stably sorted by descending key length,
paired with their replacements. -/
def multiTableSorted : List (String × String) :=
  (sortByLenDesc ((dictPairsGo [] MULTI_WORD_CORRECTIONS_SRC).reverse)).map
    (fun q => (q.2.1, q.2.2))

/-- The value of the `multiTableSorted` pipeline below, baked as a literal so that
kernel evaluation of concrete theorems does not recompute the dedup and sort; the
theorem `multiTableSorted_spec` proves it equal to the pipeline. -/
def multiTableSortedLit : List (String × String) := [
  ("departemen pekerjaan umum pan tenaca", "departemen pekerjaan umum dan tenaga"),
  ("departemen pekerjaan umum pan tenaga", "departemen pekerjaan umum dan tenaga"),
  ("departemen pekerjaan umum dan tenaca", "departemen pekerjaan umum dan tenaga"),
  ("departemen pekerjaan umum pun tenaga", "departemen pekerjaan umum dan tenaga"),
  ("kantor pembagian bendahara negara", "kantor perbendaharaan negara"),
  ("menteri pekerjaan umum dan tenaga", "menteri pekerjaan umum dan tenaga"),
  ("menteri pekerjaan umur dan tenaga", "menteri pekerjaan umum dan tenaga"),
  ("untuk menghuni rumah dil.ianat/a", "untuk menghuni rumah negara"),
  ("keterangan yang bersangkutan ter", "keterangan yang bersangkutan ter"),
  ("untuk menghuni rumah dil.ianat", "untuk menghuni rumah negara"),
  ("departemen ptsyaai dan tenaga", "departemen pekerjaan umum dan tenaga"),
  ("pusat djawatan gedung2 negara", "pusat djawatan gedung negara"),
  ("departntnptsyaai dan tenaga", "departemen pekerjaan umum dan tenaga"),
  ("departntnptsyaai pan tenaca", "departemen pekerjaan umum dan tenaga"),
  ("departntnptsyaai pan tenaga", "departemen pekerjaan umum dan tenaga"),
  ("departntnptsyaai dan tenaca", "departemen pekerjaan umum dan tenaga"),
  ("departntnptsjaai pan tenaca", "departemen pekerjaan umum dan tenaga"),
  ("departntnptsjaai pan tenaga", "departemen pekerjaan umum dan tenaga"),
  ("departemen pcaai dan tenaga", "departemen pekerjaan umum dan tenaga"),
  ("pusat jawatan gedung negara", "pusat djawatan gedung negara"),
  ("bertanda tangan dibawah ini", "bertanda tangan dibawah ini"),
  ("departemen toal tan tenaca", "departemen pekerjaan umum dan tenaga"),
  ("kantor angka penunjukan", "keterangan penunjukan"),
  ("kater angan pnid juanda", "keterangan penunjukan"),
  ("kater angan peninyutan", "keterangan penunjukan"),
  ("kater angan penunjukan", "keterangan penunjukan"),
  ("katerangan penundjukan", "keterangan penunjukan"),
  ("keterangan penundjukan", "keterangan penunjukan"),
  ("kartu angka penunjukan", "keterangan penunjukan"),
  ("katp angan pnid jukyan", "keterangan penunjukan"),
  ("krmat kantor bendahara", "kepada kantor bendahara"),
  ("departemen luar negeri", "departemen luar negeri"),
  ("enam pertanian pegawai", "badan kepegawaian"),
  ("enam peraturan pegawai", "badan kepegawaian"),
  ("sebagai lampiran dar 1", "sebagai lampiran dari 1"),
  ("pusat caamat tanggara", "pusat djawatan gedung negara"),
  ("katerangan peninjukan", "keterangan penunjukan"),
  ("kepala jawatan gedung", "kepala jawatan gedung"),
  ("konala jawatan gedung", "kepala jawatan gedung"),
  ("berkepentingan tangan", "berkepentingan"),
  ("dopartemen pekerjaan", "departemen pekerjaan"),
  ("pusat camat tenggara", "pusat djawatan gedung negara"),
  ("pusat camat tenagara", "pusat djawatan gedung negara"),
  ("untul monciari rumah", "untuk menghuni rumah"),
  ("untuk monciari rumah", "untuk menghuni rumah"),
  ("kepala pusat jawatan", "kepala pusat jawatan"),
  ("konala pusat jawatan", "kepala pusat jawatan"),
  ("sebagai lampiran dar", "sebagai lampiran dari"),
  ("yang bertanda tangan", "yang bertanda tangan"),
  ("departemenpekerjaan", "departemen pekerjaan"),
  ("pusat jawa gtgigara", "pusat djawatan gedung negara"),
  ("pusat tjaa gtgigara", "pusat djawatan gedung negara"),
  ("pusat tala gtgigara", "pusat djawatan gedung negara"),
  ("kep angan pnid utan", "keterangan penunjukan"),
  ("untuk monciri runah", "untuk menghuni rumah"),
  ("katerangan ini beru", "keterangan ini berlaku"),
  ("yang berkepentingan", "yang berkepentingan"),
  ("departma perumahan", "departemen perumahan"),
  ("pusat caa tenggara", "pusat djawatan gedung negara"),
  ("pusat caa tenagara", "pusat djawatan gedung negara"),
  ("pusat caa gtgigara", "pusat djawatan gedung negara"),
  ("pusat cap gtgigara", "pusat djawatan gedung negara"),
  ("kantor mpet zorbon", "kantor pusat perbendaharaan"),
  ("dengan ini ruangan", "dengan ini menyatakan"),
  ("mulai dari tanggal", "mulai dari tanggal"),
  ("pusat caagtcigara", "pusat djawatan gedung negara"),
  ("bercgs-r-an surat", "berdasarkan surat"),
  ("barcgs-r-an surat", "berdasarkan surat"),
  ("berdasar-an surat", "berdasarkan surat"),
  ("keterangan lantai", "keterangan lain-lain"),
  ("ketsraigan lantai", "keterangan lain-lain"),
  ("d juml.h penghuni", "djumlah penghuni"),
  ("setelah citinggol", "setelah ditinggal"),
  ("setelah cwtinggal", "setelah ditinggal"),
  ("pendapatan negara", "pendapatan negara"),
  ("departntnptsyaai", "departemen pekerjaan umum"),
  ("departntnptsjaai", "departemen pekerjaan umum"),
  ("d jumlh penghuni", "djumlah penghuni"),
  ("i d juml.h pengh", "jumlah penghuni"),
  ("konala bendahara", "kepala bendahara"),
  ("surat keterangan", "surat keterangan"),
  ("d jika rumah ten", "dan jika rumah ter"),
  ("sebut dits bolum", "sebut belum"),
  ("umur !keterangen", "umur keterangen"),
  ("penunyukan runah", "penunjukan rumah"),
  ("penunjukan runah", "penunjukan rumah"),
  ("ponyerakan runah", "penyerahan rumah"),
  ("anggaran belanya", "anggaran belanja"),
  ("departemen toal", "departemen pekerjaan umum"),
  ("juml.h penghuni", "djumlah penghuni"),
  ("surat=keteranga", "surat keterangan"),
  ("konala jawa tan", "kepala jawatan"),
  ("umur keterangen", "umur keterangan"),
  ("dibuat jrn lain", "dibuat urusan lain"),
  ("sewa bali rumah", "sewa beli rumah"),
  ("daftaran negara", "perbendaharaan negara"),
  ("torhitung mulai", "terhitung mulai"),
  ("lembaran negara", "lembaran negara"),
  ("lembazan negara", "lembaran negara"),
  ("pusat gtgigara", "pusat djawatan gedung negara"),
  ("rumah ng utara", "rumah negara"),
  ("jl.ir.h.juanda", "jl. ir. h. juanda"),
  ("konala jawatan", "kepala jawatan"),
  ("pasuruh kepala", "pesuruh kepala"),
  ("departemen/wta", "departemen/..."),
  ("dopartoron/w.t", "departemen/..."),
  ("penghuni runah", "penghuni rumah"),
  ("sewa bot rumah", "sewa beli rumah"),
  ("monciari rumah", "menghuni rumah"),
  ("pegawai negeri", "pegawai negeri"),
  ("selama pegawai", "selama pegawai"),
  ("cipto karyawan", "cipta karya"),
  ("rumah neg ara", "rumah negara"),
  ("rumah nfg ara", "rumah negara"),
  ("rum.h monurut", "rumah menurut"),
  ("djalan kramat", "jalan kramat"),
  ("j.ir.h.juanda", "jl. ir. h. juanda"),
  ("surat putusan", "surat putusan"),
  ("surat putusen", "surat putusan"),
  ("konala bagian", "kepala bagian"),
  ("konala urnsan", "kepala urusan"),
  ("tidal berlalu", "tidak berlaku"),
  ("daftaran gaji", "daftar gaji"),
  ("ciptokaryawan", "cipta karya"),
  ("kemter angan", "keterangan"),
  ("rumah negera", "rumah negara"),
  ("jelan kramat", "jalan kramat"),
  ("djalan krmat", "jalan kramat"),
  ("runah negeri", "rumah negeri"),
  ("juru pesurnh", "juru pesuruh"),
  ("surat rupiah", "ratus rupiah"),
  ("penjawa-beli", "penjualan"),
  ("demang buruk", "dewan"),
  ("kater angan", "keterangan"),
  ("jalan krmat", "jalan kramat"),
  ("jelan krmat", "jalan kramat"),
  ("jlan kramat", "jalan kramat"),
  ("bolum dapat", "belum dapat"),
  ("sic scbulan", "sewa sebulan"),
  ("kopada telp", "pada tanggal"),
  ("dil.ianat/a", "dinas"),
  ("berkehendal", "dikehendaki"),
  ("dikehendaki", "dikehendaki"),
  ("kelima ribu", "lima ribu"),
  ("disampaiknn", "disampaikan"),
  ("disampaikan", "disampaikan"),
  ("sebagainana", "sebagaimana"),
  ("pusat tala", "pusat djawatan"),
  ("peninyutan", "penunjukan"),
  ("jlan krmat", "jalan kramat"),
  ("enam senin", "badan"),
  ("dits bolum", "belum"),
  ("cori surat", "dari surat"),
  ("memutuskan", "memutuskan"),
  ("menetapkan", "menetapkan"),
  ("juru tuiis", "juru tulis"),
  ("ibu rupiah", "ribu rupiah"),
  ("suaaptaada", ""),
  ("suaaaaaada", ""),
  ("kepu tusan", "keputusan"),
  ("disampikan", "disampaikan"),
  ("dikemudian", "di kemudian"),
  ("jakartayng", "jakarta, 19"),
  ("pembajaran", "pembayaran"),
  ("kep angan", "keterangan"),
  ("dikearkan", "dikeluarkan"),
  ("dil.ianat", "dinas"),
  ("menimbang", "menimbang"),
  ("mengingat", "mengingat"),
  ("empat wun", "empat puluh"),
  ("ibu surat", "ribu seratus"),
  ("kotapraja", "kotamadya"),
  ("djenderal", "jenderal"),
  ("scwa-beli", "sewa-beli"),
  ("sowa-beli", "sewa-beli"),
  ("pendjajan", "penjualan"),
  ("kcputusan", "keputusan"),
  ("koputusan", "keputusan"),
  ("penyualan", "penjualan"),
  ("diri cri", "diri dari"),
  ("sntenhar", "september"),
  ("da puluh", "dua puluh"),
  ("tiga wun", "tiga puluh"),
  ("lima wun", "lima puluh"),
  ("daaaaaaa", ""),
  ("ssaaaaaa", ""),
  ("xrkkexax", ""),
  ("undang-2", "undang-undang"),
  ("djendral", "jenderal"),
  ("scwabeli", "sewa-beli"),
  ("mestinya", "mestinya"),
  ("mostlnya", "mestinya"),
  ("diba jar", "dibayar"),
  ("di bajar", "dibayar"),
  ("lunasnia", "lunasnya"),
  ("jakartau", "jakarta"),
  ("pasuruh", "pesuruh"),
  ("pesurnh", "pesuruh"),
  ("dua plh", "dua puluh"),
  ("ia ribu", "lima ribu"),
  ("soratus", "seratus"),
  ("rupijah", "rupiah"),
  ("sobosar", "sebesar"),
  ("xrkkexa", ""),
  ("monurut", "menurut"),
  ("undang2", "undang-undang"),
  ("agraria", "agraria"),
  ("salinan", "salinan"),
  ("sallnan", "salinan"),
  ("salfnan", "salinan"),
  ("bokoman", "bogor"),
  ("belanya", "belanja"),
  ("dibajar", "dibayar"),
  ("pemerin", "pemeriksa"),
  ("kepnla", "kepala"),
  ("roauel", "pesuruh"),
  ("tbtoah", "tersebut"),
  ("da wun", "dua puluh"),
  ("ia ibu", "lima ribu"),
  ("ruijah", "rupiah"),
  ("teeppe", ""),
  ("agaria", "agraria"),
  ("hormat", "hormat"),
  ("hrrmat", "hormat"),
  ("jaksra", "jakarta"),
  ("manado", "manado"),
  ("eeppe", ""),
  ("djend", "jenderal"),
  ("krmat", "hormat"),
  ("teiah", "telah"),
  ("istri", "listrik"),
  ("4tas", "atas"),
  ("eepp", ""),
  ("agar", "agraria"),
  ("plh", "puluh"),
  ("sri", "seksi"),
  ("sic", "seksi")
]

/-- `_apply_multi_word_corrections` on character lists: each rule of the
length-sorted table is applied as one case-insensitive whitespace-tolerant
substitution over the progressively rewritten text. -/
def _apply_multi_word_correctionsL (text : List Char) : List Char :=
  multiTableSortedLit.foldl
    (fun res kv => subScan (toPattern kv.1.data) (multiReplacer kv.2.data) res)
    text

/-- `_apply_multi_word_corrections` on `String`. -/
def _apply_multi_word_corrections (text : String) : String :=
  String.mk (_apply_multi_word_correctionsL text.data)

/-! ### `correct_with_stats`: tokenization and the counting token pass -/

/-- The groups of `re.match(r'^([^\w]*)([\w\-\']+)([^\w]*)$', token)`: a greedy
non-word prefix, a non-empty greedy run of word/hyphen/apostrophe characters,
and a non-word tail.  Group-1 lengths are tried longest first, then group-2
lengths longest first, exactly as the backtracking regex does. -/
def match3 (tok : List Char) : Option (List Char × List Char × List Char) :=
  let maxP := (tok.takeWhile (fun c => !isWordC c)).length
  (List.range (maxP + 1)).reverse.findSome? fun i =>
    let rest := tok.drop i
    let maxW := (rest.takeWhile isWordishC).length
    (List.range maxW).reverse.findSome? fun j1 =>
      let j := j1 + 1
      let s := rest.drop j
      if s.all (fun c => !isWordC c) then some (tok.take i, rest.take j, s) else none

/-- Token handling of `correct_with_stats` for one non-whitespace token:
`11septenbor`-style digit–letter gluing is split (always inserting a space),
then the prefix–word–suffix shape, then the symbol-splitting fallback.
Returns the rewritten token and the number of counted corrections. -/
def processToken (tok : List Char) : List Char × Nat :=
  let d := tok.takeWhile isDigitC
  let w := tok.drop d.length
  if !d.isEmpty && decide (3 ≤ w.length) && w.all isAlphaC then
    let cw := correct_wordL w
    (d ++ [' '] ++ cw, if cw ≠ w then 1 else 0)
  else
    let a := tok.takeWhile isAlphaC
    let n := tok.drop a.length
    if decide (3 ≤ a.length) && !n.isEmpty && n.all isDigitC then
      let cw := correct_wordL a
      (cw ++ [' '] ++ n, if cw ≠ a then 1 else 0)
    else
      match match3 tok with
      | some (pre, word, suf) =>
        let cw := correct_wordL word
        (pre ++ cw ++ suf, if cw ≠ word then 1 else 0)
      | none =>
        (runs isWordishC tok).foldl
          (fun acc sub =>
            if !sub.isEmpty && sub.all isWordishC then
              let cw := correct_wordL sub
              (acc.1 ++ cw, acc.2 + if cw ≠ sub then 1 else 0)
            else (acc.1 ++ sub, acc.2))
          ([], 0)

/-- The per-token pass of `correct_with_stats`: the text is split into maximal
whitespace / non-whitespace runs (`re.findall(r'\S+|\s+', text)`), whitespace
runs are kept and word tokens go through `processToken`, accumulating the
corrections count. -/
def tokenPass (text : List Char) : List Char × Nat :=
  (runs (fun c => !isPySpace c) text).foldl
    (fun acc tok =>
      if tok.any (fun c => !isPySpace c) then
        let r := processToken tok
        (acc.1 ++ r.1, acc.2 + r.2)
      else (acc.1 ++ tok, acc.2))
    ([], 0)

/-- `correct_with_stats` on character lists: empty input is returned unchanged
with zero corrections; otherwise the multi-word phrase pass runs first (without
touching the count) and then the counting token pass. -/
def correct_with_statsL (text : List Char) : List Char × Nat :=
  if text.isEmpty then (text, 0)
  else tokenPass (_apply_multi_word_correctionsL text)

/-- `correct_with_stats` on `String`. -/
def correct_with_stats (text : String) : String × Nat :=
  let r := correct_with_statsL text.data
  (String.mk r.1, r.2)

/-! ### An operational model of the `re` subset used by `normalize_currency_and_numbers`

A backtracking matcher in continuation-passing style over the constructs the
source's patterns use: character classes, sequencing, alternation (left branch
preferred), greedy `*`/`+`/`?`, capturing groups, positive/negative lookahead,
fixed-width lookbehind, `^`/`$` (no MULTILINE) and `\b`.  As in Python,
`re.sub` scans the original string left to right, replaces non-overlapping
matches and resumes after each match; context assertions always consult the
original string.  Recursion is paced by a fuel parameter that strictly exceeds
the depth any of the source's patterns can reach on the given input (every
repetition body consumes at least one character). -/

/-- Regex abstract syntax (the source's subset). -/
inductive RE where
  | eps
  | cls (f : Char → Bool)
  | seq (a b : RE)
  | alt (a b : RE)
  | star (a : RE)
  | grp (n : Nat) (a : RE)
  | look (a : RE)
  | nlook (a : RE)
  | lookb (back : List (Char → Bool))
  | bos
  | eos
  | wordb

/-- Captured groups: group index paired with the captured characters (latest first). -/
abbrev Caps : Type := List (Nat × List Char)

/-- A successful match: consumed prefix (reversed), remaining input, captures. -/
abbrev MRes : Type := List Char × List Char × Caps

/-- Word-character test on an optional boundary character. -/
def wordAt : Option Char → Bool
  | some c => isWordC c
  | none => false

/-- Fixed-width lookbehind test: predicates are listed innermost (closest to the
current position) first and are checked against the reversed consumed prefix. -/
def matchBack : List (Char → Bool) → List Char → Bool
  | [], _ => true
  | f :: fs, c :: cs => f c && matchBack fs cs
  | _ :: _, [] => false

/-- The backtracking matcher.  `pre` is the reversed original prefix before the
current position, `rest` the remaining original input, `k` the continuation. -/
def mre (fuel : Nat) (re : RE) (pre rest : List Char) (caps : Caps)
    (k : List Char → List Char → Caps → Option MRes) : Option MRes :=
  match fuel with
  | 0 => none
  | fuel + 1 =>
    match re with
    | .eps => k pre rest caps
    | .cls f =>
      match rest with
      | [] => none
      | c :: cs => if f c then k (c :: pre) cs caps else none
    | .seq a b => mre fuel a pre rest caps (fun p r cp => mre fuel b p r cp k)
    | .alt a b =>
      match mre fuel a pre rest caps k with
      | some res => some res
      | none => mre fuel b pre rest caps k
    | .star a =>
      match
        mre fuel a pre rest caps (fun p r cp =>
          if r.length < rest.length then mre fuel (.star a) p r cp k else k p r cp)
      with
      | some res => some res
      | none => k pre rest caps
    | .grp n a =>
      mre fuel a pre rest caps (fun p r cp =>
        k p r ((n, (p.take (p.length - pre.length)).reverse) :: cp))
    | .look a =>
      match mre fuel a pre rest caps (fun p r cp => some (p, r, cp)) with
      | some (_, _, cp) => k pre rest cp
      | none => none
    | .nlook a =>
      match mre fuel a pre rest caps (fun p r cp => some (p, r, cp)) with
      | some _ => none
      | none => k pre rest caps
    | .lookb back => if matchBack back pre then k pre rest caps else none
    | .bos => if pre.isEmpty then k pre rest caps else none
    | .eos => if rest.isEmpty then k pre rest caps else none
    | .wordb =>
      if wordAt pre.head? != wordAt rest.head? then k pre rest caps else none

/-- `re.sub` driver: try a match at every position of the original string,
replacing via `rf` (which receives the captures and the matched span) and
resuming after the match.  All of the source's patterns consume at least one
character, so the zero-width guard is defensive; the scan fuel (first `Nat`
argument after `fuel`) bounds the number of scan steps, each of which consumes
at least one character, so `length + 1` is always enough. -/
def reSubGo (re : RE) (rf : Caps → List Char → List Char) (fuel : Nat) :
    Nat → List Char → List Char → List Char
  | 0, _, l => l
  | _, _, [] => []
  | sfuel + 1, pre, c :: rest =>
    match mre fuel re pre (c :: rest) [] (fun p r cp => some (p, r, cp)) with
    | some (p, _, cp) =>
      let n := p.length - pre.length
      if n = 0 then c :: reSubGo re rf fuel sfuel (c :: pre) rest
      else rf cp ((c :: rest).take n) ++ reSubGo re rf fuel sfuel p ((c :: rest).drop n)
    | none => c :: reSubGo re rf fuel sfuel (c :: pre) rest

/-- A piece of a replacement template: literal text or a group reference. -/
inductive RPart where
  | lit (s : String)
  | grp (n : Nat)

/-- Group lookup in the captures (latest binding first, as accumulated). -/
def capGet (cp : Caps) (n : Nat) : List Char :=
  (((cp.find? (fun x => x.1 = n)).map (fun x => x.2)).getD [])

/-- Instantiate a replacement template with the match's captures. -/
def applyTemplate (tmpl : List RPart) (cp : Caps) : List Char :=
  tmpl.foldl
    (fun acc part => acc ++ (match part with | RPart.lit s => s.data | RPart.grp n => capGet cp n))
    []

/-- `re.sub(pattern, template, text)`. -/
def reSubT (re : RE) (tmpl : List RPart) (text : List Char) : List Char :=
  reSubGo re (fun cp _ => applyTemplate tmpl cp) (2 * text.length + 400) (text.length + 1) [] text

/-- `re.sub(pattern, function, text)` for function replacements on the span. -/
def reSubF (re : RE) (f : List Char → List Char) (text : List Char) : List Char :=
  reSubGo re (fun _ span => f span) (2 * text.length + 400) (text.length + 1) [] text

/-! Pattern-building helpers. -/

/-- Case-sensitive literal character. -/
def chrE (c : Char) : RE := RE.cls (fun x => x = c)

/-- Case-insensitive literal character (`re.IGNORECASE`). -/
def chrI (c : Char) : RE := RE.cls (fun x => lowerC x = lowerC c)

/-- Case-sensitive character class given by its members. -/
def clsIn (s : String) : RE := RE.cls (fun x => s.data.contains x)

/-- Sequence a list of regexes. -/
def seqL (l : List RE) : RE :=
  match l with
  | [] => RE.eps
  | x :: xs => xs.foldl RE.seq x

/-- Alternation over a list, preferring earlier entries. -/
def altL (l : List RE) : RE :=
  match l with
  | [] => RE.eps
  | [x] => x
  | x :: xs => RE.alt x (altL xs)

/-- Case-insensitive literal string. -/
def strI (s : String) : RE := seqL (s.data.map chrI)

/-- Case-sensitive literal string. -/
def strE (s : String) : RE := seqL (s.data.map chrE)

/-- Greedy `+`. -/
def plusE (a : RE) : RE := RE.seq a (RE.star a)

/-- Greedy `?`. -/
def optE (a : RE) : RE := RE.alt a RE.eps

/-! ### The patterns of `normalize_currency_and_numbers` -/

/-- `\d+(?:[.,]\d+)*` — a digit run with optional separator-digit groups. -/
def numRE : RE := seqL [plusE (RE.cls isDigitC), RE.star (seqL [clsIn ".,", plusE (RE.cls isDigitC)])]

/-- `\s*` -/
def ws0 : RE := RE.star (RE.cls isPySpace)

/-- `\s+` -/
def ws1 : RE := plusE (RE.cls isPySpace)

/-- The month-name alternation of the year-repair patterns. -/
def monthNames : List String :=
  ["januari", "februari", "maret", "april", "mei", "juni", "juli", "agustus",
   "september", "oktober", "november", "desember"]

/-- `(months…)` as capture group `g` (case-insensitive). -/
def monthAlt (g : Nat) : RE := RE.grp g (altL (monthNames.map strI))

/-- `\s*[,.]*\s*` -/
def sepOpt : RE := seqL [ws0, RE.star (clsIn ",."), ws0]

/-- `[lI1]` under IGNORECASE: l, L, i, I or 1. -/
def clsLI1 : RE := RE.cls (fun c => lowerC c = 'l' || lowerC c = 'i' || c = '1')

/-- `[lI]` under IGNORECASE: l, L, i or I. -/
def clsLI : RE := RE.cls (fun c => lowerC c = 'l' || lowerC c = 'i')

/-- The `rp_patterns` list: each entry is a compiled pattern with its replacement
template, applied by `re.sub(..., flags=re.IGNORECASE)` in source order. -/
def rpPatterns : List (RE × List RPart) :=
  [ -- Rp\.?\s*(\d+(?:[.,]\d+)*)\s*[-.,]+\s*[-]+  →  Rp \1,-
    (seqL [strI "Rp", optE (chrE '.'), ws0, RE.grp 1 numRE, ws0,
           plusE (clsIn "-.,"), ws0, plusE (chrE '-')],
     [RPart.lit "Rp ", RPart.grp 1, RPart.lit ",-"]),
    -- Rp\.?\s*(\d+(?:[.,]\d+)*)  →  Rp \1
    (seqL [strI "Rp", optE (chrE '.'), ws0, RE.grp 1 numRE],
     [RPart.lit "Rp ", RPart.grp 1]),
    -- Ru\.?\s*(\d+(?:[.,]\d+)*)  →  Rp \1
    (seqL [strI "Ru", optE (chrE '.'), ws0, RE.grp 1 numRE],
     [RPart.lit "Rp ", RPart.grp 1]),
    -- R[Pp]y\.?\s*(\d+(?:[.,]\d+)*)  →  Rp \1
    (seqL [chrI 'r', chrI 'p', chrI 'y', optE (chrE '.'), ws0, RE.grp 1 numRE],
     [RPart.lit "Rp ", RPart.grp 1]),
    -- (^|\s)[.:]+(\d+(?:[.,]\d+)*)(?=\s|$|[-.,])  →  \1Rp \2
    (seqL [RE.grp 1 (RE.alt RE.bos (RE.cls isPySpace)), plusE (clsIn ".:"),
           RE.grp 2 numRE, RE.look (altL [RE.cls isPySpace, RE.eos, clsIn "-.,"])],
     [RPart.grp 1, RPart.lit "Rp ", RPart.grp 2]),
    -- (months)\s*[,.]*\s*([98]\d{2})(?!\d)  →  \1 1\2
    (seqL [monthAlt 1, sepOpt,
           RE.grp 2 (seqL [clsIn "98", RE.cls isDigitC, RE.cls isDigitC]),
           RE.nlook (RE.cls isDigitC)],
     [RPart.grp 1, RPart.lit " 1", RPart.grp 2]),
    -- (months)\s*[,.]*\s*([98]\d)[lI1](?!\d)  →  \1 1\g<2>1
    (seqL [monthAlt 1, sepOpt, RE.grp 2 (seqL [clsIn "98", RE.cls isDigitC]),
           clsLI1, RE.nlook (RE.cls isDigitC)],
     [RPart.grp 1, RPart.lit " 1", RPart.grp 2, RPart.lit "1"]),
    -- \b([lI]{2})\s+(months)  →  11 \2
    (seqL [RE.wordb, RE.grp 1 (seqL [clsLI, clsLI]), ws1, monthAlt 2],
     [RPart.lit "11 ", RPart.grp 2]),
    -- (months)\s*[,.]*\s*(19|20)\s+(\d{2})(?!\d)  →  \1 \2\3
    (seqL [monthAlt 1, sepOpt, RE.grp 2 (RE.alt (strE "19") (strE "20")), ws1,
           RE.grp 3 (seqL [RE.cls isDigitC, RE.cls isDigitC]), RE.nlook (RE.cls isDigitC)],
     [RPart.grp 1, RPart.lit " ", RPart.grp 2, RPart.grp 3]),
    -- 25\s*[,.]\s*[zZ]00  →  25.100
    (seqL [chrE '2', chrE '5', ws0, clsIn ",.", ws0, chrI 'z', chrE '0', chrE '0'],
     [RPart.lit "25.100"]),
    -- \b[Pp][lI1][hbn]\b  →  puluh
    (seqL [RE.wordb, chrI 'p', clsLI1,
           RE.cls (fun c => lowerC c = 'h' || lowerC c = 'b' || lowerC c = 'n'), RE.wordb],
     [RPart.lit "puluh"]),
    -- \b(ke\s*lima|kelima)\s+(ribu|ratus)  →  lima \2
    (seqL [RE.wordb,
           RE.grp 1 (RE.alt (seqL [strI "ke", ws0, strI "lima"]) (strI "kelima")),
           ws1, RE.grp 2 (RE.alt (strI "ribu") (strI "ratus"))],
     [RPart.lit "lima ", RPart.grp 2]),
    -- \bs[o0a]ratus\b  →  seratus
    (seqL [RE.wordb, chrI 's',
           RE.cls (fun c => lowerC c = 'o' || c = '0' || lowerC c = 'a'),
           strI "ratus", RE.wordb],
     [RPart.lit "seratus"]),
    -- \b[Kk]asm\s*[.,]\s*nem\b  →  Kasminem
    (seqL [RE.wordb, chrI 'k', strI "asm", ws0, clsIn ".,", ws0, strI "nem", RE.wordb],
     [RPart.lit "Kasminem"]),
    -- \b[Ss]ukati[l1I]\b  →  Sukati
    (seqL [RE.wordb, chrI 's', strI "ukati", clsLI1, RE.wordb],
     [RPart.lit "Sukati"]),
    -- \b[Mm]aineh\b  →  Mainah
    (seqL [RE.wordb, chrI 'm', strI "aineh", RE.wordb],
     [RPart.lit "Mainah"]) ]

/-- The character class `[lOoIzZsS0-9.,]` of the after-`Rp` digit repair. -/
def numFixClsC (c : Char) : Bool :=
  ("lOoIzZsS.,".data.contains c) || isDigitC c

/-- `fix_number_chars`: translate letter/digit confusions inside a number run,
but only when the run mixes letters and digits. -/
def fixNumberChars (span : List Char) : List Char :=
  if span.any (fun c => "lOoIzZsS".data.contains c) && span.any isDigitC then
    span.map (fun c =>
      if c = 'l' then '1' else if c = 'O' then '0' else if c = 'o' then '0'
      else if c = 'I' then '1' else if c = 'z' then '2' else if c = 'Z' then '2'
      else if c = 's' then '5' else if c = 'S' then '5' else if c = 'b' then '6'
      else c)
  else span

/-- `fix_year`: `year.replace('g','9').replace('l','1').replace('O','0')`. -/
def fixYear (span : List Char) : List Char :=
  span.map (fun c => if c = 'g' then '9' else if c = 'l' then '1' else if c = 'O' then '0' else c)

/-- `[0-9lOog]` of the first year pattern. -/
def yearClsA : RE := RE.cls (fun c => isDigitC c || c = 'l' || c = 'O' || c = 'o' || c = 'g')

/-- `[0-9lOo]` of the second year pattern. -/
def yearClsB : RE := RE.cls (fun c => isDigitC c || c = 'l' || c = 'O' || c = 'o')

/-- `normalize_currency_and_numbers` on character lists: the `rp_patterns`
substitutions in order, then the two lookbehind digit repairs (case-sensitive),
then the two year repairs (case-sensitive).  Empty input is returned as is. -/
def normalizeL (text : List Char) : List Char :=
  if text.isEmpty then text
  else
    let r := rpPatterns.foldl (fun t pr => reSubT pr.1 pr.2 t) text
    -- (?<=Rp\s)[lOoIzZsS0-9.,]+  and  (?<=Rp\.)[lOoIzZsS0-9.,]+
    let r := reSubF (seqL [RE.lookb [isPySpace, (· = 'p'), (· = 'R')], plusE (RE.cls numFixClsC)])
      fixNumberChars r
    let r := reSubF (seqL [RE.lookb [(· = '.'), (· = 'p'), (· = 'R')], plusE (RE.cls numFixClsC)])
      fixNumberChars r
    -- \b1[9g][0-9lOog]{2}\b  and  \b20[0-9lOo]{2}\b
    let r := reSubF
      (seqL [RE.wordb, chrE '1', RE.cls (fun c => c = '9' || c = 'g'), yearClsA, yearClsA, RE.wordb])
      fixYear r
    let r := reSubF
      (seqL [RE.wordb, chrE '2', chrE '0', yearClsB, yearClsB, RE.wordb])
      fixYear r
    r

/-- `normalize_currency_and_numbers` on `String`. -/
def normalize_currency_and_numbers (text : String) : String := String.mk (normalizeL text.data)

/-- `correct_text_with_currency`: dictionary correction, then currency/number
normalization, with the count incremented by exactly one when the
normalization changed the text. -/
def correct_text_with_currency (text : String) : String × Nat :=
  let r := correct_with_stats text
  let normalized := normalize_currency_and_numbers r.1
  (normalized, r.2 + if normalized ≠ r.1 then 1 else 0)

/-! ### `OCRService.proses_file`: multi-page reassembly

Per-page recognition (`baca_gambar`) is I/O; we model it by the list of
per-page results it would produce (one `PageResult` per PDF page, in page
order).  The parallel branch of `proses_file` stores each completed
`(idx, text, confidences)` in dicts keyed by page index — in whatever order the
futures complete — and afterwards rebuilds the output by iterating indices
`0..N-1`; the sequential branch folds over the pages directly.  Confidence
values are opaque rationals. -/

/-- The result of recognizing one page. -/
structure PageResult where
  text : String
  confidences : List ℚ
deriving DecidableEq

/-- The page marker line prepended to a page's text:
`--- Halaman (idx + 1) ---` followed by a newline and the text. -/
def pageMarker (idx : Nat) (text : String) : String :=
  "--- Halaman " ++ toString (idx + 1) ++ " ---\n" ++ text

/-- Python dict assignment `d[k] = v` on an association list (updates an
existing key in place, otherwise appends). -/
def dictInsert (d : List (Nat × PageResult)) (k : Nat) (v : PageResult) :
    List (Nat × PageResult) :=
  if d.any (fun p => p.1 = k) then d.map (fun p => if p.1 = k then (k, v) else p)
  else d ++ [(k, v)]

/-- Python `d.get(k)` on an association list. -/
def dictFind (d : List (Nat × PageResult)) (k : Nat) : Option PageResult :=
  (d.find? (fun p => p.1 = k)).map (fun p => p.2)

/-- The default `PageResult` giving the rebuild loop's `.get(idx, "")` /
`.get(idx, [])` defaults. -/
def emptyPage : PageResult := ⟨"", []⟩

/-- One step of the rebuild loop over page indices: append the marker for a
non-empty page text and extend the confidence list, reading the page result
from `f`. -/
def pageStep (f : Nat → PageResult) (acc : List String × List ℚ) (idx : Nat) :
    List String × List ℚ :=
  ((if (f idx).text ≠ "" then acc.1 ++ [pageMarker idx (f idx).text] else acc.1),
   acc.2 ++ (f idx).confidences)

/-- One step of the sequential per-page loop (the third component is the
running page index). -/
def seqStep (acc : List String × List ℚ × Nat) (p : PageResult) :
    List String × List ℚ × Nat :=
  ((if p.text ≠ "" then acc.1 ++ [pageMarker acc.2.2 p.text] else acc.1),
   acc.2.1 ++ p.confidences, acc.2.2 + 1)

/-- Sequential branch: iterate pages in order, appending the marker for
non-empty texts and extending the confidence list. -/
def prosesPdfSequential (pages : List PageResult) : String × List ℚ :=
  (String.intercalate "\n\n" (pages.foldl seqStep ([], [], 0)).1,
   (pages.foldl seqStep ([], [], 0)).2.1)

/-- Parallel branch: `completionOrder` lists the page indices in the order the
futures complete; each completion stores that page's recognition result in the
dict (`hasil_per_halaman` / `confidences_per_halaman`), and the output lists
are rebuilt over indices `0..N-1`. -/
def parallelRebuild (pages : List PageResult) (completionOrder : List Nat) :
    List String × List ℚ :=
  (List.range pages.length).foldl
    (pageStep (fun idx => (dictFind (completionOrder.foldl
      (fun d idx => dictInsert d idx (pages.getD idx emptyPage)) []) idx).getD emptyPage))
    ([], [])

/-- Parallel branch, continued: the final text joins the collected marked page
texts with blank lines, next to the concatenated confidences. -/
def prosesPdfParallel (pages : List PageResult) (completionOrder : List Nat) :
    String × List ℚ :=
  (String.intercalate "\n\n" (parallelRebuild pages completionOrder).1,
   (parallelRebuild pages completionOrder).2)

/-! ### `LearningService.track_unknown_words`

The `learned_words` table is modelled as an association list from the word to
its row (frequency counter and approval flag; the timestamp columns play no
role in the claims).  `track_unknown_words` lower-cases and strips each word,
skips invalid ones, increments the frequency of known rows — approving a row
the moment the new frequency reaches `FREQUENCY_THRESHOLD` while it was not yet
approved, and counting that approval — and inserts fresh rows with frequency 1. -/

/-- A row of the `learned_words` table. -/
structure LearnedRow where
  frequency : Nat
  is_approved : Bool
deriving DecidableEq

/-- The `learned_words` table. -/
abbrev LearnedDB : Type := List (String × LearnedRow)

/-- `FREQUENCY_THRESHOLD = 5`. -/
def FREQUENCY_THRESHOLD : Nat := 5

/-- `SELECT ... WHERE word = ?`. -/
def dbFind (db : LearnedDB) (w : String) : Option LearnedRow :=
  (db.find? (fun p => p.1 = w)).map (fun p => p.2)

/-- `UPDATE learned_words SET ... WHERE id = ?` for the row holding `w`
(words are unique in the table: rows are only inserted when absent). -/
def dbUpdate (db : LearnedDB) (w : String) (r : LearnedRow) : LearnedDB :=
  db.map (fun p => if p.1 = w then (w, r) else p)

/-- The key under which a word is tracked: `word.lower().strip()`. -/
def trackWordKey (word : String) : String := String.mk (pyStrip (pyLower word).data)

/-- Processing of one word inside the `track_unknown_words` loop; returns the
updated table and 1 when this word was newly approved (the new frequency is the
old one plus 1). -/
def trackOne (db : LearnedDB) (word : String) : LearnedDB × Nat :=
  if !_is_valid_word (trackWordKey word) then (db, 0)
  else
    match dbFind db (trackWordKey word) with
    | some row =>
      if FREQUENCY_THRESHOLD ≤ row.frequency + 1 ∧ row.is_approved = false then
        (dbUpdate db (trackWordKey word) ⟨row.frequency + 1, true⟩, 1)
      else
        (dbUpdate db (trackWordKey word) ⟨row.frequency + 1, row.is_approved⟩, 0)
    | none => (db ++ [(trackWordKey word, ⟨1, false⟩)], 0)

/-- `track_unknown_words`: loop over the supplied words, returning the updated
table and the number of newly approved words (0 immediately for an empty list). -/
def track_unknown_words (db : LearnedDB) (words : List String) : LearnedDB × Nat :=
  if words.isEmpty then (db, 0)
  else
    words.foldl
      (fun acc w =>
        let r := trackOne acc.1 w
        (r.1, acc.2 + r.2))
      (db, 0)

/-- `k` repeated calls `track_unknown_words(db, [w])` (tracking one word `k` times). -/
def trackRepeated (w : String) : Nat → LearnedDB → LearnedDB
  | 0, db => db
  | k + 1, db => (track_unknown_words (trackRepeated w k db) [w]).1

/-! ### `scoring_service.py`: the composite quality score

Float arithmetic is modelled exactly over `ℚ`; Python's `int(x)` is truncation
toward zero and `round(x, 1)` rounds half to even at one decimal. -/

/-- The rational value of a natural number (avoiding cast instances, which do
not reduce in the kernel). -/
def natQ (n : Nat) : ℚ := mkRat n 1

/-- The rational value of an integer. -/
def intQ (i : ℤ) : ℚ := mkRat i 1

/-- Python `min` on rationals. -/
def qmin (a b : ℚ) : ℚ := if a ≤ b then a else b

/-- Python `max` on rationals. -/
def qmax (a b : ℚ) : ℚ := if a ≤ b then b else a

/-- Python `min` on integers. -/
def imin (a b : ℤ) : ℤ := if a ≤ b then a else b

/-- Python `max` on integers. -/
def imax (a b : ℤ) : ℤ := if a ≤ b then b else a

/-- Python `int()` on a rational: truncation toward zero
(`num.tdiv den` is exactly that truncation). -/
def pyInt (q : ℚ) : ℤ := q.num.tdiv (Int.ofNat q.den)

/-- The floor of a rational (`num.fdiv den`, the denominator being positive). -/
def ratFloor (q : ℚ) : ℤ := q.num.fdiv (Int.ofNat q.den)

/-- Round half to even to an integer. -/
def roundHalfEven (x : ℚ) : ℤ :=
  let f := ratFloor x
  let r := x - intQ f
  if r < 1 / 2 then f
  else if 1 / 2 < r then f + 1
  else if f.emod 2 = 0 then f else f + 1

/-- Python `round(x, 1)`. -/
def round1 (q : ℚ) : ℚ := intQ (roundHalfEven (q * 10)) / 10

/-- `QualityScoreResult` (the three component floats are stored rounded to one
decimal, as in the source). -/
structure QualityScoreResult where
  overall : ℤ
  label : String
  confidence : ℚ
  dictionary_match : ℚ
  correction_rate : ℚ
  total_words : Nat
  matched_words : Nat
  corrected_words : Nat
deriving DecidableEq

/-- `WEIGHT_CONFIDENCE = 0.40`. -/
def WEIGHT_CONFIDENCE : ℚ := 40 / 100

/-- `WEIGHT_DICTIONARY = 0.30`. -/
def WEIGHT_DICTIONARY : ℚ := 30 / 100

/-- `WEIGHT_CORRECTION = 0.30`. -/
def WEIGHT_CORRECTION : ℚ := 30 / 100

/-- `_get_quality_label`. -/
def _get_quality_label (score : ℤ) : String :=
  if 85 ≤ score then "Excellent"
  else if 70 ≤ score then "Good"
  else if 50 ≤ score then "Fair"
  else "Poor"

/-- `_extract_words`: maximal alphabetic runs of length at least 3 in the
lower-cased text (`re.findall(r'[a-zA-Z]{3,}', text.lower())`). -/
def _extract_words (text : String) : List String :=
  ((runs isAlphaC (pyLower text).data).filter
    (fun r => r.all isAlphaC && decide (3 ≤ r.length))).map String.mk

/-- `_calculate_dictionary_match`: `(percentage, matched, total)`. -/
def _calculate_dictionary_match (words : List String) : ℚ × Nat × Nat :=
  if words.isEmpty then (100, 0, 0)
  else
    let matched := (words.filter (fun w => KAMUS_DOKUMEN.contains (pyLower w))).length
    let total := words.length
    (if 0 < total then natQ matched / natQ total * 100 else 100, matched, total)

/-- `_calculate_correction_rate`: `100 − corrected/total·100`, floored at 0,
and 100 when there are no words. -/
def _calculate_correction_rate (total corrected : Nat) : ℚ :=
  if total = 0 then 100
  else qmax 0 (100 - natQ corrected / natQ total * 100)

/-- `_calculate_confidence_score`: mean of the supplied values, scaled by 100
when the mean is at most 1, clamped to `[0, 100]`; 75 when no data. -/
def _calculate_confidence_score (confs : List ℚ) : ℚ :=
  if confs.isEmpty then 75
  else if confs.sum / natQ confs.length ≤ 1 then
    qmin 100 (qmax 0 (confs.sum / natQ confs.length * 100))
  else qmin 100 (qmax 0 (confs.sum / natQ confs.length))

/-- `calculate_quality_score` (a `None` confidence list is passed as `[]`,
matching the source's `confidence_scores or []`). -/
def calculate_quality_score (text : String) (confidence_scores : List ℚ)
    (dictionary_corrections : Nat) : QualityScoreResult :=
  let words := _extract_words text
  let total_words := words.length
  let confidence_score := _calculate_confidence_score confidence_scores
  let d := _calculate_dictionary_match words
  let correction_score := _calculate_correction_rate total_words dictionary_corrections
  let overall0 := pyInt (confidence_score * WEIGHT_CONFIDENCE + d.1 * WEIGHT_DICTIONARY +
    correction_score * WEIGHT_CORRECTION)
  let overall := imin 100 (imax 0 overall0)
  { overall := overall
    label := _get_quality_label overall
    confidence := round1 confidence_score
    dictionary_match := round1 d.1
    correction_rate := round1 correction_score
    total_words := total_words
    matched_words := d.2.1
    corrected_words := dictionary_corrections }

/-! ### Specification predicates used by the theorems below -/

/-- Invariant of the `extractOne` fold: after scanning `past`, the accumulator
is `none` exactly when every scanned candidate scores below the cutoff, and
otherwise holds the first maximal scanned candidate together with its score. -/
def ExtractInv (q : List Char) (cutoff : ℚ) (past : List String) :
    Option (String × ℚ) → Prop
  | none => ∀ w ∈ past, fuzzRatio q w.data < cutoff
  | some (bw, bs) => bw ∈ past ∧ bs = fuzzRatio q bw.data ∧ cutoff ≤ bs ∧
      ∀ w ∈ past, fuzzRatio q w.data ≤ bs

/-! ### Theorems

The multi-word table literal is first proved equal to the source pipeline it
bakes, then the claims are settled. -/

set_option maxRecDepth 1000000

/-- The multi-word table literal baked into `_apply_multi_word_correctionsL`
is exactly the table the source pipeline produces: the dict literal's unique
keys in first-occurrence order, stably sorted by descending key length. -/
theorem multiTableSorted_spec : multiTableSortedLit = multiTableSorted := by decide

/-- Counterexample to claim C2: the word-correction stages do alter tokens
that are not purely alphabetic — the phrase table rewrites the digit-bearing
token `dar1` to `dari` inside `correct_word`, and the multi-word stage of
`correct_with_stats` rewrites `4tas` to `atas`. -/
theorem C2_counterexample :
    _is_valid_word "dar1" = false ∧ correct_word "dar1" = "dari" ∧
    correct_with_stats "4tas" = ("atas", 0) :=
  ⟨by decide, by decide, by decide⟩

/-- Claim C2, corrected: only the fuzzy-matching stage is restricted to purely
alphabetic tokens — a token failing the validity gate and absent from the
phrase table is returned unchanged by `correct_word`; tokens with digits or
punctuation can still be rewritten through the explicit phrase tables (see the
counterexample) or by the separate currency normalization. -/
theorem C2_invalid_token_unchanged (kata : String)
    (hp : pyDictGet PHRASE_CORRECTIONS_SRC (pyLower kata) = none)
    (hv : _is_valid_word kata = false) :
    correct_word kata = kata := by
  obtain ⟨l⟩ := kata
  have hp' : pyDictGet PHRASE_CORRECTIONS_SRC (String.mk (pyLowerL l)) = none := hp
  have hv' : _is_valid_wordL l = false := hv
  cases l with
  | nil => rfl
  | cons c cs =>
    have hne : (c :: cs).isEmpty = false := rfl
    show String.mk (correct_wordL (c :: cs)) = String.mk (c :: cs)
    simp only [correct_wordL, hne, Bool.false_eq_true, if_false, hp', hv', Bool.not_false,
      if_true]

/-- Witness for `C2_invalid_token_unchanged`: the mixed token `ab3x` is not in
the phrase table, fails the validity gate and is returned unchanged. -/
theorem C2_invalid_token_unchanged_witness :
    pyDictGet PHRASE_CORRECTIONS_SRC (pyLower "ab3x") = none ∧
    _is_valid_word "ab3x" = false ∧ correct_word "ab3x" = "ab3x" :=
  ⟨by decide, by decide, C2_invalid_token_unchanged "ab3x" (by decide) (by decide)⟩

/-- Claim C3: every emitted replacement is case-styled from the original token
or span — the phrase path and the fuzzy path of `correct_word` both emit
`caseAdjust` of the matched replacement (all-upper input upper-cases it, an
upper first letter capitalizes it), the stored replacements in both tables are
entirely lower-case (so the stored casing is what the all-lower branch emits),
and concretely `DEPARTNN` corrects to `DEPARTEMEN`, `Departntn` to
`Departemen`, and the multi-word pass maps `JALAN KRMAT` to `JALAN KRAMAT` and
`Jalan krmat` to `Jalan Kramat`. -/
theorem C3_case_style :
    (∀ (kata v : String), kata.data ≠ [] →
      pyDictGet PHRASE_CORRECTIONS_SRC (pyLower kata) = some v →
      correct_word kata = String.mk (caseAdjust kata.data v.data)) ∧
    (∀ (kata b : String), _is_valid_word kata = true →
      pyDictGet PHRASE_CORRECTIONS_SRC (pyLower kata) = none →
      KAMUS_DOKUMEN.contains (pyLower kata) = false →
      extractOne (pyLower kata).data KAMUS_DOKUMEN 65 = some b →
      correct_word kata = String.mk (caseAdjust kata.data b.data)) ∧
    PHRASE_CORRECTIONS_SRC.all (fun p => pyLower p.2 == p.2) = true ∧
    MULTI_WORD_CORRECTIONS_SRC.all (fun p => pyLower p.2 == p.2) = true ∧
    correct_word "DEPARTNN" = "DEPARTEMEN" ∧
    correct_word "Departntn" = "Departemen" ∧
    _apply_multi_word_corrections "JALAN KRMAT" = "JALAN KRAMAT" ∧
    _apply_multi_word_corrections "Jalan krmat" = "Jalan Kramat" := by
  refine ⟨?_, ?_, by decide, by decide, by decide, by decide, by decide, by decide⟩
  · intro kata v hne hp
    obtain ⟨l⟩ := kata
    obtain ⟨lv⟩ := v
    have hp' : pyDictGet PHRASE_CORRECTIONS_SRC (String.mk (pyLowerL l)) = some ⟨lv⟩ := hp
    cases l with
    | nil => exact absurd rfl hne
    | cons c cs =>
      have hne2 : (c :: cs).isEmpty = false := rfl
      show String.mk (correct_wordL (c :: cs)) = String.mk (caseAdjust (c :: cs) lv)
      simp only [correct_wordL, hne2, Bool.false_eq_true, if_false, hp']
  · intro kata b hv hp hmem hext
    obtain ⟨l⟩ := kata
    have hv' : _is_valid_wordL l = true := hv
    have hp' : pyDictGet PHRASE_CORRECTIONS_SRC (String.mk (pyLowerL l)) = none := hp
    have hmem' : KAMUS_DOKUMEN.contains (String.mk (pyLowerL l)) = false := hmem
    have hext' : extractOne (pyLowerL l) KAMUS_DOKUMEN 65 = some b := hext
    have hne : l.isEmpty = false := by
      cases l with
      | nil => simp [_is_valid_wordL] at hv'
      | cons c cs => rfl
    show String.mk (correct_wordL l) = String.mk (caseAdjust l b.data)
    simp only [correct_wordL, hne, Bool.false_eq_true, if_false, hp', hv', Bool.not_true,
      _find_best_matchL, hmem', hext']

/-- Witness for `C3_case_style`: the phrase entry `nomoa → nomor` applied to
the capitalized token `Nomoa` emits the capitalized replacement `Nomor`. -/
theorem C3_case_style_witness :
    pyDictGet PHRASE_CORRECTIONS_SRC (pyLower "Nomoa") = some "nomor" ∧
    correct_word "Nomoa" = "Nomor" := by
  refine ⟨by decide, ?_⟩
  have h := C3_case_style.1 "Nomoa" "nomor" (by decide) (by decide)
  rw [h]
  decide

/-- Counterexample to claim C4: on `jalan krmat jakrta` the returned
corrections count is not 2. -/
theorem C4_counterexample :
    correct_with_stats "jalan krmat jakrta" ≠ ("jalan kramat jakarta", 2) := by decide

/-- Claim C4, corrected: `correct_with_stats "jalan krmat jakrta"` does return
the fully corrected text `jalan kramat jakarta`, but with count 1, not 2: the
phrase `jalan krmat` is rewritten to `jalan kramat` by the uncounted
multi-word stage, and only the token-level correction `jakrta → jakarta` is
counted. -/
theorem C4_scenario :
    correct_with_stats "jalan krmat jakrta" = ("jalan kramat jakarta", 1) := by decide

/-- Counterexample to claim C5: the multi-word pass is not idempotent on its
own output — `istri` becomes `listrik` (a table entry), and `listrik` contains
`istri` as a substring, so a second pass rewrites it again to `llistrikk`. -/
theorem C5_counterexample :
    _apply_multi_word_corrections "istri" = "listrik" ∧
    _apply_multi_word_corrections (_apply_multi_word_corrections "istri") = "llistrikk" ∧
    _apply_multi_word_corrections (_apply_multi_word_corrections "istri") ≠
      _apply_multi_word_corrections "istri" := by
  have h1 : _apply_multi_word_corrections "istri" = "listrik" := by decide
  have h2 : _apply_multi_word_corrections "listrik" = "llistrikk" := by decide
  refine ⟨h1, by rw [h1]; exact h2, by rw [h1, h2]; decide⟩

/-- Claim C5, corrected: idempotence holds exactly for texts the multi-word
pass already leaves unchanged — every fixed point is stable under repeated
application; the pass's outputs are in general not fixed points (see the
counterexample). -/
theorem C5_fixed_point_stable (t : String)
    (h : _apply_multi_word_corrections t = t) :
    _apply_multi_word_corrections (_apply_multi_word_corrections t) =
      _apply_multi_word_corrections t := by
  rw [h, h]

/-- Witness for `C5_fixed_point_stable`: `xyz` is untouched by the multi-word
pass and hence stable. -/
theorem C5_fixed_point_stable_witness :
    _apply_multi_word_corrections "xyz" = "xyz" ∧
    _apply_multi_word_corrections (_apply_multi_word_corrections "xyz") =
      _apply_multi_word_corrections "xyz" :=
  ⟨by decide, C5_fixed_point_stable "xyz" (by decide)⟩

/-! ### Theorems -/

set_option maxRecDepth 1000000

/-- One step of the `extractOne` fold preserves `ExtractInv`. -/
theorem extractStep_inv (q : List Char) (cutoff : ℚ) (past : List String)
    (acc : Option (String × ℚ)) (w : String) (h : ExtractInv q cutoff past acc) :
    ExtractInv q cutoff (past ++ [w]) (extractStep q cutoff acc w) := by
  have hmemw : w ∈ past ++ [w] := List.mem_append_right _ (by simp)
  cases acc with
  | none =>
    have h' : ∀ x ∈ past, fuzzRatio q x.data < cutoff := h
    show ExtractInv q cutoff (past ++ [w])
      (if cutoff ≤ fuzzRatio q w.data then some (w, fuzzRatio q w.data) else none)
    by_cases hc : cutoff ≤ fuzzRatio q w.data
    · rw [if_pos hc]
      refine ⟨hmemw, rfl, hc, ?_⟩
      intro x hx
      rcases List.mem_append.mp hx with h1 | h2
      · exact le_trans (le_of_lt (h' x h1)) hc
      · rw [List.mem_singleton.mp h2]
    · rw [if_neg hc]
      intro x hx
      rcases List.mem_append.mp hx with h1 | h2
      · exact h' x h1
      · rw [List.mem_singleton.mp h2]; exact lt_of_not_le hc
  | some p =>
    obtain ⟨bw, bs⟩ := p
    obtain ⟨hmem, hsc, hcut, hmax⟩ := h
    show ExtractInv q cutoff (past ++ [w])
      (if cutoff ≤ fuzzRatio q w.data then
        (if bs < fuzzRatio q w.data then some (w, fuzzRatio q w.data) else some (bw, bs))
       else some (bw, bs))
    by_cases hc : cutoff ≤ fuzzRatio q w.data
    · rw [if_pos hc]
      by_cases hlt : bs < fuzzRatio q w.data
      · rw [if_pos hlt]
        refine ⟨hmemw, rfl, hc, ?_⟩
        intro x hx
        rcases List.mem_append.mp hx with h1 | h2
        · exact le_of_lt (lt_of_le_of_lt (hmax x h1) hlt)
        · rw [List.mem_singleton.mp h2]
      · rw [if_neg hlt]
        refine ⟨List.mem_append_left _ hmem, hsc, hcut, ?_⟩
        intro x hx
        rcases List.mem_append.mp hx with h1 | h2
        · exact hmax x h1
        · rw [List.mem_singleton.mp h2]; exact le_of_not_lt hlt
    · rw [if_neg hc]
      refine ⟨List.mem_append_left _ hmem, hsc, hcut, ?_⟩
      intro x hx
      rcases List.mem_append.mp hx with h1 | h2
      · exact hmax x h1
      · rw [List.mem_singleton.mp h2]
        exact le_trans (le_of_lt (lt_of_not_le hc)) hcut

/-- The `extractOne` fold establishes `ExtractInv` over any scanned segment. -/
theorem extractFold_inv (q : List Char) (cutoff : ℚ) :
    ∀ (choices : List String) (acc : Option (String × ℚ)) (past : List String),
      ExtractInv q cutoff past acc →
      ExtractInv q cutoff (past ++ choices) (choices.foldl (extractStep q cutoff) acc) := by
  intro choices
  induction choices with
  | nil => intro acc past h; simpa using h
  | cons w ws ih =>
    intro acc past h
    have h2 := ih (extractStep q cutoff acc w) (past ++ [w]) (extractStep_inv q cutoff past acc w h)
    simpa [List.append_assoc] using h2

/-- `extractOne` either rejects (every candidate scores below the cutoff) or
returns a maximal candidate scoring at least the cutoff. -/
theorem extractOne_cases (q : List Char) (cutoff : ℚ) (choices : List String) :
    (extractOne q choices cutoff = none ∧ ∀ w ∈ choices, fuzzRatio q w.data < cutoff) ∨
    (∃ b ∈ choices, cutoff ≤ fuzzRatio q b.data ∧
      (∀ w ∈ choices, fuzzRatio q w.data ≤ fuzzRatio q b.data) ∧
      extractOne q choices cutoff = some b) := by
  have h0 : ExtractInv q cutoff [] (none : Option (String × ℚ)) := by
    intro w hw
    simp at hw
  have h := extractFold_inv q cutoff choices none [] h0
  cases hr : choices.foldl (extractStep q cutoff) none with
  | none =>
    left
    rw [hr] at h
    exact ⟨by simp [extractOne, hr], by simpa using h⟩
  | some p =>
    right
    obtain ⟨bw, bs⟩ := p
    rw [hr] at h
    obtain ⟨hmem, hsc, hcut, hmax⟩ := h
    refine ⟨bw, by simpa using hmem, hsc ▸ hcut, ?_, by simp [extractOne, hr]⟩
    intro w hw
    exact hsc ▸ hmax w (by simpa using hw)

/-- Claim C6: for a valid token absent from the phrase table, `correct_word`
never alters a token already in the dictionary; otherwise the best fuzzy
candidate is accepted exactly when its similarity score reaches the fixed
cutoff 65 (a best match scoring exactly 65 is accepted, one scoring strictly
below leaves the token unchanged), and the emitted replacement is the
case-adjusted maximal candidate. -/
theorem C6_fuzzy_cutoff (kata : String)
    (hv : _is_valid_word kata = true)
    (hp : pyDictGet PHRASE_CORRECTIONS_SRC (pyLower kata) = none) :
    (KAMUS_DOKUMEN.contains (pyLower kata) = true → correct_word kata = kata) ∧
    (KAMUS_DOKUMEN.contains (pyLower kata) = false →
      ((∀ w ∈ KAMUS_DOKUMEN, fuzzRatio (pyLower kata).data w.data < 65) →
          correct_word kata = kata) ∧
      ((∃ w ∈ KAMUS_DOKUMEN, 65 ≤ fuzzRatio (pyLower kata).data w.data) →
          ∃ b ∈ KAMUS_DOKUMEN, 65 ≤ fuzzRatio (pyLower kata).data b.data ∧
            (∀ w ∈ KAMUS_DOKUMEN, fuzzRatio (pyLower kata).data w.data ≤
              fuzzRatio (pyLower kata).data b.data) ∧
            correct_word kata = String.mk (caseAdjust kata.data b.data))) := by
  obtain ⟨l⟩ := kata
  have hv' : _is_valid_wordL l = true := hv
  have hp' : pyDictGet PHRASE_CORRECTIONS_SRC (String.mk (pyLowerL l)) = none := hp
  have hne : l.isEmpty = false := by
    cases l with
    | nil => simp [_is_valid_wordL] at hv'
    | cons c cs => rfl
  constructor
  · intro hmem
    have hmem' : KAMUS_DOKUMEN.contains (String.mk (pyLowerL l)) = true := hmem
    show String.mk (correct_wordL l) = String.mk l
    simp only [correct_wordL, hne, Bool.false_eq_true, if_false, hp', hv', Bool.not_true,
      _find_best_matchL, hmem', if_true]
  · intro hmem
    have hmem' : KAMUS_DOKUMEN.contains (String.mk (pyLowerL l)) = false := hmem
    constructor
    · intro hall
      rcases extractOne_cases (pyLowerL l) 65 KAMUS_DOKUMEN with ⟨hnone, _⟩ | ⟨b, hb, hcut, _, _⟩
      · show String.mk (correct_wordL l) = String.mk l
        simp only [correct_wordL, hne, Bool.false_eq_true, if_false, hp', hv', Bool.not_true,
          _find_best_matchL, hmem', hnone]
      · exact absurd hcut (not_le_of_lt (hall b hb))
    · intro hex
      rcases extractOne_cases (pyLowerL l) 65 KAMUS_DOKUMEN with ⟨_, hall⟩ | ⟨b, hb, hcut, hmax, hsome⟩
      · obtain ⟨w, hw, hwc⟩ := hex
        exact absurd hwc (not_le_of_lt (hall w hw))
      · refine ⟨b, hb, hcut, hmax, ?_⟩
        show String.mk (correct_wordL l) = String.mk (caseAdjust l b.data)
        simp only [correct_wordL, hne, Bool.false_eq_true, if_false, hp', hv', Bool.not_true,
          _find_best_matchL, hmem', hsome]

/-- Witness for `C6_fuzzy_cutoff`: the token `jalan` is valid, absent from the
phrase table and present verbatim in the dictionary, so it is left unchanged. -/
theorem C6_fuzzy_cutoff_witness :
    _is_valid_word "jalan" = true ∧ correct_word "jalan" = "jalan" :=
  ⟨by decide, (C6_fuzzy_cutoff "jalan" (by decide) (by decide)).1 (by decide)⟩

/-! ### Claim C1: order-independence of multi-page reassembly -/

/-- Lookup in a non-empty association dict. -/
theorem dictFind_cons (x : Nat × PageResult) (rest : List (Nat × PageResult)) (k : Nat) :
    dictFind (x :: rest) k = if x.1 = k then some x.2 else dictFind rest k := by
  by_cases hx : x.1 = k
  · unfold dictFind
    rw [List.find?_cons_of_pos _ (by simpa using hx), if_pos hx]
    rfl
  · unfold dictFind
    rw [List.find?_cons_of_neg _ (by simpa using hx), if_neg hx]

/-- Updating an existing key of the association dict. -/
theorem dictFind_map_update_self (k : Nat) (v : PageResult) :
    ∀ d : List (Nat × PageResult), d.any (fun p => p.1 = k) = true →
      dictFind (d.map (fun p => if p.1 = k then (k, v) else p)) k = some v := by
  intro d
  induction d with
  | nil => intro h; simp at h
  | cons p d ih =>
    intro h
    rw [List.map_cons, dictFind_cons]
    by_cases hp : p.1 = k
    · simp [if_pos hp]
    · have h' : d.any (fun p => p.1 = k) = true := by
        simp only [List.any_cons, hp] at h
        simpa using h
      rw [if_neg hp, if_neg hp]
      exact ih h'

/-- Updating key `k` does not change lookups of other keys. -/
theorem dictFind_map_update_other (k : Nat) (v : PageResult) (k' : Nat) (hk : k' ≠ k) :
    ∀ d : List (Nat × PageResult),
      dictFind (d.map (fun p => if p.1 = k then (k, v) else p)) k' = dictFind d k' := by
  intro d
  induction d with
  | nil => rfl
  | cons p d ih =>
    rw [List.map_cons, dictFind_cons, dictFind_cons]
    by_cases hp : p.1 = k
    · rw [if_pos hp]
      have h2 : ¬p.1 = k' := by
        rw [hp]
        exact Ne.symm hk
      rw [if_neg (show ¬((k, v) : Nat × PageResult).1 = k' from Ne.symm hk), if_neg h2]
      exact ih
    · rw [if_neg hp]
      by_cases hp' : p.1 = k'
      · rw [if_pos hp', if_pos hp']
      · rw [if_neg hp', if_neg hp']
        exact ih

/-- Appending a fresh key makes it found. -/
theorem dictFind_append_self (k : Nat) (v : PageResult) :
    ∀ d : List (Nat × PageResult), d.any (fun p => p.1 = k) = false →
      dictFind (d ++ [(k, v)]) k = some v := by
  intro d
  induction d with
  | nil =>
    intro _
    rw [List.nil_append, dictFind_cons, if_pos rfl]
  | cons p d ih =>
    intro h
    simp only [List.any_cons, Bool.or_eq_false_iff] at h
    have hp : ¬p.1 = k := by simpa using h.1
    rw [List.cons_append, dictFind_cons, if_neg hp]
    exact ih (by simpa using h.2)

/-- Appending key `k` does not change lookups of other keys. -/
theorem dictFind_append_other (k : Nat) (v : PageResult) (k' : Nat) (hk : k' ≠ k) :
    ∀ d : List (Nat × PageResult), dictFind (d ++ [(k, v)]) k' = dictFind d k' := by
  intro d
  induction d with
  | nil =>
    show dictFind [(k, v)] k' = none
    rw [dictFind_cons, if_neg (show ¬((k, v) : Nat × PageResult).1 = k' from Ne.symm hk)]
    rfl
  | cons p d ih =>
    rw [List.cons_append, dictFind_cons, dictFind_cons]
    by_cases hp : p.1 = k'
    · rw [if_pos hp, if_pos hp]
    · rw [if_neg hp, if_neg hp]
      exact ih

/-- Python dict assignment followed by lookup. -/
theorem dictFind_insert (d : List (Nat × PageResult)) (k : Nat) (v : PageResult) (k' : Nat) :
    dictFind (dictInsert d k v) k' = if k' = k then some v else dictFind d k' := by
  unfold dictInsert
  by_cases hk : k' = k
  · subst hk
    by_cases hany : d.any (fun p => p.1 = k') = true
    · simp only [hany, if_true, if_pos rfl]
      exact dictFind_map_update_self k' v d hany
    · simp only [hany, if_false, if_pos rfl]
      refine dictFind_append_self k' v d ?_
      cases h2 : d.any (fun p => p.1 = k') with
      | true => exact absurd h2 hany
      | false => rfl
  · by_cases hany : d.any (fun p => p.1 = k) = true
    · simp only [hany, if_true, if_neg hk]
      exact dictFind_map_update_other k v k' hk d
    · simp only [hany, if_false, if_neg hk]
      exact dictFind_append_other k v k' hk d

/-- Lookup after folding completions into the dict: an index that completed is
mapped to its page's recognition result, anything else is untouched. -/
theorem buildFind (pages : List PageResult) :
    ∀ (order : List Nat) (d : List (Nat × PageResult)) (i : Nat),
      dictFind (order.foldl (fun d idx => dictInsert d idx (pages.getD idx emptyPage)) d) i =
        if i ∈ order then some (pages.getD i emptyPage) else dictFind d i := by
  intro order
  induction order with
  | nil => intro d i; simp
  | cons j rest ih =>
    intro d i
    simp only [List.foldl_cons]
    rw [ih (dictInsert d j (pages.getD j emptyPage)) i,
      dictFind_insert d j (pages.getD j emptyPage) i]
    by_cases hr : i ∈ rest
    · simp [hr]
    · by_cases hj : i = j
      · subst hj; simp [hr]
      · simp [hr, hj, List.mem_cons]

/-- Folds with functions agreeing on the list's members coincide. -/
theorem foldl_congr_mem {α β : Type} :
    ∀ (l : List α) (f g : β → α → β) (b : β),
      (∀ b x, x ∈ l → f b x = g b x) → l.foldl f b = l.foldl g b := by
  intro l
  induction l with
  | nil => intro f g b _; rfl
  | cons x xs ih =>
    intro f g b h
    simp only [List.foldl_cons]
    rw [h b x (by simp)]
    exact ih f g (g b x) (fun b y hy => h b y (List.mem_cons_of_mem x hy))

/-- `pageStep` only depends on the page result at the processed index. -/
theorem pageStep_congr (f g : Nat → PageResult) (b : List String × List ℚ) (x : Nat)
    (h : f x = g x) : pageStep f b x = pageStep g b x := by
  unfold pageStep
  rw [h]

/-- `getD` ignores an appended tail below the first list's length. -/
theorem getD_append_lt :
    ∀ (l₁ l₂ : List PageResult) (i : Nat), i < l₁.length →
      (l₁ ++ l₂).getD i emptyPage = l₁.getD i emptyPage := by
  intro l₁
  induction l₁ with
  | nil => intro l₂ i h; simp at h
  | cons p l ih =>
    intro l₂ i h
    cases i with
    | zero => simp
    | succ n =>
      simp only [List.cons_append, List.getD_cons_succ]
      exact ih l₂ n (by simpa using h)

/-- `getD` at the old length of a concatenation reads the appended element. -/
theorem getD_concat_self :
    ∀ (l : List PageResult) (p : PageResult), (l ++ [p]).getD l.length emptyPage = p := by
  intro l
  induction l with
  | nil => intro p; simp
  | cons q l ih =>
    intro p
    simp only [List.cons_append, List.length_cons, List.getD_cons_succ]
    exact ih p

/-- The sequential per-page fold computes the canonical index-order rebuild
(its third component being the page count). -/
theorem seq_canon (pages : List PageResult) :
    pages.foldl seqStep ([], [], 0) =
      (((List.range pages.length).foldl (pageStep (fun i => pages.getD i emptyPage)) ([], [])).1,
       ((List.range pages.length).foldl (pageStep (fun i => pages.getD i emptyPage)) ([], [])).2,
       pages.length) := by
  induction pages using List.reverseRecOn with
  | nil => rfl
  | append_singleton ps p ih =>
    rw [List.foldl_append, ih]
    have hlen : (ps ++ [p]).length = ps.length + 1 := by simp
    rw [hlen, List.range_succ, List.foldl_append]
    have hcong : (List.range ps.length).foldl
        (pageStep (fun i => (ps ++ [p]).getD i emptyPage)) ([], []) =
        (List.range ps.length).foldl (pageStep (fun i => ps.getD i emptyPage)) ([], []) := by
      apply foldl_congr_mem
      intro b x hx
      exact pageStep_congr _ _ b x (getD_append_lt ps [p] x (List.mem_range.mp hx))
    rw [hcong]
    simp only [List.foldl_cons, List.foldl_nil]
    have hget : (ps ++ [p]).getD ps.length emptyPage = p := getD_concat_self ps p
    simp only [seqStep, pageStep, hget]

/-- Claim C1: for a multi-page document, the parallel branch of
`proses_file` produces exactly the sequential result for every completion
order of the page tasks — page texts concatenated in index order `0..N-1`,
each non-empty page carrying its marker, and the confidence lists concatenated
in the same index order. -/
theorem C1_page_order (pages : List PageResult) (order : List Nat)
    (h : order.Perm (List.range pages.length)) :
    prosesPdfParallel pages order = prosesPdfSequential pages := by
  have hcong : parallelRebuild pages order =
      (List.range pages.length).foldl (pageStep (fun i => pages.getD i emptyPage)) ([], []) := by
    unfold parallelRebuild
    apply foldl_congr_mem
    intro b x hx
    apply pageStep_congr
    rw [buildFind pages order [] x, if_pos (h.mem_iff.mpr hx)]
    rfl
  unfold prosesPdfParallel prosesPdfSequential
  rw [hcong, seq_canon pages]

/-- Witness for `C1_page_order`: a three-page document whose middle page is
empty, with completion order `[2, 0, 1]`. -/
theorem C1_page_order_witness :
    ([2, 0, 1] : List Nat).Perm
      (List.range ([⟨"a", [1]⟩, ⟨"", [2]⟩, ⟨"c", [3]⟩] : List PageResult).length) ∧
    prosesPdfParallel [⟨"a", [1]⟩, ⟨"", [2]⟩, ⟨"c", [3]⟩] [2, 0, 1] =
      prosesPdfSequential [⟨"a", [1]⟩, ⟨"", [2]⟩, ⟨"c", [3]⟩] :=
  ⟨by decide, C1_page_order [⟨"a", [1]⟩, ⟨"", [2]⟩, ⟨"c", [3]⟩] [2, 0, 1] (by decide)⟩

/-! ### Claim C7: vocabulary promotion at the frequency threshold -/

/-- Lookup in a non-empty `learned_words` table. -/
theorem dbFind_cons (x : String × LearnedRow) (rest : LearnedDB) (w : String) :
    dbFind (x :: rest) w = if x.1 = w then some x.2 else dbFind rest w := by
  by_cases hx : x.1 = w
  · unfold dbFind
    rw [List.find?_cons_of_pos _ (by simpa using hx), if_pos hx]
    rfl
  · unfold dbFind
    rw [List.find?_cons_of_neg _ (by simpa using hx), if_neg hx]

/-- Updating a present word's row makes the new row found. -/
theorem dbFind_update_self (w : String) (r : LearnedRow) :
    ∀ (db : LearnedDB) (r0 : LearnedRow), dbFind db w = some r0 →
      dbFind (dbUpdate db w r) w = some r := by
  intro db
  induction db with
  | nil => intro r0 h; simp [dbFind] at h
  | cons x rest ih =>
    intro r0 h
    unfold dbUpdate
    rw [List.map_cons, dbFind_cons]
    by_cases hx : x.1 = w
    · rw [if_pos hx]
      simp
    · rw [if_neg hx, if_neg hx]
      rw [dbFind_cons, if_neg hx] at h
      exact ih r0 h

/-- Updating one word's row does not change lookups of other words. -/
theorem dbFind_update_other (w : String) (r : LearnedRow) (v : String) (hv : v ≠ w) :
    ∀ db : LearnedDB, dbFind (dbUpdate db w r) v = dbFind db v := by
  intro db
  induction db with
  | nil => rfl
  | cons x rest ih =>
    unfold dbUpdate
    rw [List.map_cons, dbFind_cons, dbFind_cons]
    by_cases hx : x.1 = w
    · rw [if_pos hx]
      have h2 : ¬x.1 = v := by rw [hx]; exact Ne.symm hv
      rw [if_neg (show ¬((w, r) : String × LearnedRow).1 = v from Ne.symm hv), if_neg h2]
      exact ih
    · rw [if_neg hx]
      by_cases hx' : x.1 = v
      · rw [if_pos hx', if_pos hx']
      · rw [if_neg hx', if_neg hx']
        exact ih

/-- A lookup that succeeds keeps succeeding after rows are appended. -/
theorem dbFind_append_keep (v : String) (r : LearnedRow) (l : LearnedDB) :
    ∀ db : LearnedDB, dbFind db v = some r → dbFind (db ++ l) v = some r := by
  intro db
  induction db with
  | nil => intro h; simp [dbFind] at h
  | cons x rest ih =>
    intro h
    rw [dbFind_cons] at h
    rw [List.cons_append, dbFind_cons]
    by_cases hx : x.1 = v
    · rw [if_pos hx] at h ⊢
      exact h
    · rw [if_neg hx] at h ⊢
      exact ih h

/-- Appending a fresh word's row makes it found. -/
theorem dbFind_append_fresh (w : String) (r : LearnedRow) :
    ∀ db : LearnedDB, dbFind db w = none → dbFind (db ++ [(w, r)]) w = some r := by
  intro db
  induction db with
  | nil =>
    intro _
    rw [List.nil_append, dbFind_cons, if_pos rfl]
  | cons x rest ih =>
    intro h
    rw [dbFind_cons] at h
    rw [List.cons_append, dbFind_cons]
    by_cases hx : x.1 = w
    · rw [if_pos hx] at h
      exact absurd h (by simp)
    · rw [if_neg hx] at h ⊢
      exact ih h

/-- `track_unknown_words` on a single word is `trackOne`. -/
theorem track_single (db : LearnedDB) (w : String) :
    track_unknown_words db [w] = ((trackOne db w).1, (trackOne db w).2) := by
  simp [track_unknown_words]

/-- The frequency/approval trajectory of a fresh valid word: after `k + 1`
tracking calls its row holds frequency `k + 1`, approved exactly when the
frequency has reached the threshold. -/
theorem trackRepeated_fresh (w : String) (db : LearnedDB)
    (hval : _is_valid_word (trackWordKey w) = true)
    (hnone : dbFind db (trackWordKey w) = none) :
    ∀ k, dbFind (trackRepeated w (k + 1) db) (trackWordKey w) =
      some ⟨k + 1, decide (FREQUENCY_THRESHOLD ≤ k + 1)⟩ := by
  intro k
  induction k with
  | zero =>
    show dbFind (track_unknown_words (trackRepeated w 0 db) [w]).1 _ = _
    rw [show trackRepeated w 0 db = db from rfl, track_single]
    unfold trackOne
    rw [hval]
    simp only [Bool.not_true, Bool.false_eq_true, if_false, hnone]
    exact dbFind_append_fresh _ _ db hnone
  | succ k ih =>
    show dbFind (track_unknown_words (trackRepeated w (k + 1) db) [w]).1 _ = _
    rw [track_single]
    unfold trackOne
    rw [hval]
    simp only [Bool.not_true, Bool.false_eq_true, if_false, ih]
    by_cases ha : FREQUENCY_THRESHOLD ≤ k + 1
    · -- already at or past the threshold: the stored flag is true, so the
      -- approval branch is not taken and the flag stays true
      have hd : decide (FREQUENCY_THRESHOLD ≤ k + 1) = true := by simpa using ha
      rw [hd]
      have hcond : ¬(FREQUENCY_THRESHOLD ≤ k + 1 + 1 ∧
          (⟨k + 1, true⟩ : LearnedRow).is_approved = false) := by
        intro hc
        exact absurd hc.2 (by simp)
      rw [if_neg hcond]
      have := dbFind_update_self (trackWordKey w)
        ⟨k + 1 + 1, true⟩ (trackRepeated w (k + 1) db) ⟨k + 1, true⟩ (hd ▸ ih)
      rw [this]
      have hd2 : decide (FREQUENCY_THRESHOLD ≤ k + 1 + 1) = true := by
        simpa using Nat.le_succ_of_le ha
      rw [hd2]
    · have hd : decide (FREQUENCY_THRESHOLD ≤ k + 1) = false := by simpa using ha
      rw [hd]
      by_cases hb : FREQUENCY_THRESHOLD ≤ k + 1 + 1
      · -- the new frequency first reaches the threshold: approve
        have hcond : FREQUENCY_THRESHOLD ≤ k + 1 + 1 ∧
            (⟨k + 1, false⟩ : LearnedRow).is_approved = false := ⟨hb, rfl⟩
        rw [if_pos hcond]
        have := dbFind_update_self (trackWordKey w)
          ⟨k + 1 + 1, true⟩ (trackRepeated w (k + 1) db) ⟨k + 1, false⟩ (hd ▸ ih)
        rw [this]
        have hd2 : decide (FREQUENCY_THRESHOLD ≤ k + 1 + 1) = true := by simpa using hb
        rw [hd2]
      · have hcond : ¬(FREQUENCY_THRESHOLD ≤ k + 1 + 1 ∧
            (⟨k + 1, false⟩ : LearnedRow).is_approved = false) := by
          intro hc
          exact hb hc.1
        rw [if_neg hcond]
        have := dbFind_update_self (trackWordKey w)
          ⟨k + 1 + 1, false⟩ (trackRepeated w (k + 1) db) ⟨k + 1, false⟩ (hd ▸ ih)
        rw [this]
        have hd2 : decide (FREQUENCY_THRESHOLD ≤ k + 1 + 1) = false := by simpa using hb
        rw [hd2]

/-- One tracking step never revokes an approval, for any looked-up word. -/
theorem trackOne_mono (db : LearnedDB) (u v : String) (r : LearnedRow)
    (hf : dbFind db v = some r) (ha : r.is_approved = true) :
    ∃ r', dbFind (trackOne db u).1 v = some r' ∧ r'.is_approved = true := by
  unfold trackOne
  by_cases hval : _is_valid_word (trackWordKey u) = true
  · rw [hval]
    simp only [Bool.not_true, Bool.false_eq_true, if_false]
    cases hrow : dbFind db (trackWordKey u) with
    | none =>
      exact ⟨r, dbFind_append_keep v r _ db hf, ha⟩
    | some row =>
      dsimp only
      by_cases hv : v = trackWordKey u
      · subst hv
        rw [hf] at hrow
        have hr : row = r := by
          injection hrow with h
          exact h.symm
        subst hr
        have hcond : ¬(FREQUENCY_THRESHOLD ≤ row.frequency + 1 ∧ row.is_approved = false) := by
          intro hc
          rw [ha] at hc
          exact absurd hc.2 (by simp)
        rw [if_neg hcond]
        exact ⟨⟨row.frequency + 1, row.is_approved⟩,
          dbFind_update_self (trackWordKey u) _ db row hf, ha⟩
      · by_cases hcond : FREQUENCY_THRESHOLD ≤ row.frequency + 1 ∧ row.is_approved = false
        · rw [if_pos hcond]
          exact ⟨r, by rw [dbFind_update_other _ _ v hv db]; exact hf, ha⟩
        · rw [if_neg hcond]
          exact ⟨r, by rw [dbFind_update_other _ _ v hv db]; exact hf, ha⟩
  · rw [if_pos (by simpa using hval)]
    exact ⟨r, hf, ha⟩

/-- The tracking fold never revokes an approval. -/
theorem trackFold_mono (words : List String) :
    ∀ (acc : LearnedDB × Nat) (v : String) (r : LearnedRow),
      dbFind acc.1 v = some r → r.is_approved = true →
      ∃ r', dbFind (words.foldl
          (fun acc w => ((trackOne acc.1 w).1, acc.2 + (trackOne acc.1 w).2)) acc).1 v = some r' ∧
        r'.is_approved = true := by
  induction words with
  | nil => intro acc v r hf ha; exact ⟨r, hf, ha⟩
  | cons u us ih =>
    intro acc v r hf ha
    obtain ⟨r1, hf1, ha1⟩ := trackOne_mono acc.1 u v r hf ha
    simpa using ih ((trackOne acc.1 u).1, acc.2 + (trackOne acc.1 u).2) v r1 hf1 ha1

/-- Claim C7: a fresh valid tracked word carries frequency `k` after `k`
tracking calls and is approved exactly when that frequency has reached
`FREQUENCY_THRESHOLD = 5`: after 4 calls it is not approved, the 5th call
reports exactly one newly approved word and leaves it approved, and further
tracking never revokes an approval. -/
theorem C7_vocab_promotion :
    (∀ (w : String) (db : LearnedDB),
        _is_valid_word (trackWordKey w) = true →
        dbFind db (trackWordKey w) = none →
        (∀ k, dbFind (trackRepeated w (k + 1) db) (trackWordKey w) =
            some ⟨k + 1, decide (FREQUENCY_THRESHOLD ≤ k + 1)⟩) ∧
        dbFind (trackRepeated w 4 db) (trackWordKey w) =
          some ⟨4, false⟩ ∧
        (track_unknown_words (trackRepeated w 4 db) [w]).2 = 1 ∧
        dbFind (trackRepeated w 5 db) (trackWordKey w) =
          some ⟨5, true⟩) ∧
    (∀ (db : LearnedDB) (words : List String) (v : String) (r : LearnedRow),
        dbFind db v = some r → r.is_approved = true →
        ∃ r', dbFind (track_unknown_words db words).1 v = some r' ∧
          r'.is_approved = true) := by
  constructor
  · intro w db hval hnone
    have htraj := trackRepeated_fresh w db hval hnone
    have h4 : dbFind (trackRepeated w 4 db) (trackWordKey w) =
        some ⟨4, false⟩ := htraj 3
    refine ⟨htraj, h4, ?_, htraj 4⟩
    rw [track_single]
    unfold trackOne
    rw [hval]
    simp only [Bool.not_true, Bool.false_eq_true, if_false, h4]
    simp [FREQUENCY_THRESHOLD]
  · intro db words v r hf ha
    unfold track_unknown_words
    by_cases hw : words.isEmpty
    · rw [if_pos hw]
      exact ⟨r, hf, ha⟩
    · rw [if_neg hw]
      exact trackFold_mono words (db, 0) v r hf ha

/-- Witness for `C7_vocab_promotion`: a word absent from the dictionary tables,
tracked from an empty table. -/
theorem C7_vocab_promotion_witness :
    _is_valid_word "notakamus" = true ∧
    dbFind (trackRepeated "notakamus" 4 []) "notakamus" = some ⟨4, false⟩ ∧
    (track_unknown_words (trackRepeated "notakamus" 4 []) ["notakamus"]).2 = 1 ∧
    dbFind (trackRepeated "notakamus" 5 []) "notakamus" = some ⟨5, true⟩ := by
  have h := C7_vocab_promotion.1 "notakamus" [] (by decide) (by decide)
  exact ⟨by decide, h.2.1, h.2.2.1, h.2.2.2⟩

/-! ### Claims C8 and C9: the composite quality score -/

/-- The clamp `imin 100 (imax 0 x)` lands in `[0, 100]`. -/
theorem clamp_bounds (x : ℤ) : 0 ≤ imin 100 (imax 0 x) ∧ imin 100 (imax 0 x) ≤ 100 := by
  unfold imin imax
  split_ifs <;> omega

/-- Claim C8: the overall score is the weighted sum of the three component
scores with fixed weights 0.40 / 0.30 / 0.30, truncated to an integer and
clamped into `[0, 100]`; the label is Excellent at 85 and above, Good at 70,
Fair at 50, else Poor; the confidence component defaults to 75 with no data and
is the mean scaled by 100 (clamped) when the mean lies in `[0, 1]`. -/
theorem C8_quality_score (text : String) (confs : List ℚ) (corrections : Nat) :
    (WEIGHT_CONFIDENCE = 40 / 100 ∧ WEIGHT_DICTIONARY = 30 / 100 ∧
      WEIGHT_CORRECTION = 30 / 100) ∧
    (calculate_quality_score text confs corrections).overall =
      imin 100 (imax 0 (pyInt
        (_calculate_confidence_score confs * WEIGHT_CONFIDENCE +
         (_calculate_dictionary_match (_extract_words text)).1 * WEIGHT_DICTIONARY +
         _calculate_correction_rate (_extract_words text).length corrections *
           WEIGHT_CORRECTION))) ∧
    (0 ≤ (calculate_quality_score text confs corrections).overall ∧
      (calculate_quality_score text confs corrections).overall ≤ 100) ∧
    (calculate_quality_score text confs corrections).label =
      (if 85 ≤ (calculate_quality_score text confs corrections).overall then "Excellent"
       else if 70 ≤ (calculate_quality_score text confs corrections).overall then "Good"
       else if 50 ≤ (calculate_quality_score text confs corrections).overall then "Fair"
       else "Poor") ∧
    (confs = [] → _calculate_confidence_score confs = 75) ∧
    (confs ≠ [] → 0 ≤ confs.sum / natQ confs.length → confs.sum / natQ confs.length ≤ 1 →
      _calculate_confidence_score confs =
        qmin 100 (qmax 0 (confs.sum / natQ confs.length * 100))) := by
  refine ⟨⟨rfl, rfl, rfl⟩, rfl, clamp_bounds _, rfl, ?_, ?_⟩
  · intro h
    subst h
    rfl
  · intro hne _ h1
    cases confs with
    | nil => exact absurd rfl hne
    | cons c cs =>
      unfold _calculate_confidence_score
      rw [if_neg (by simp), if_pos h1]

/-- Witness for `C8_quality_score`: a single confidence value `1/2` (mean in
`[0, 1]`) yields confidence component 50. -/
theorem C8_quality_score_witness : _calculate_confidence_score [1 / 2] = 50 := by
  have h := (C8_quality_score "" [1 / 2] 0).2.2.2.2.2 (by with_unfolding_all decide)
    (by with_unfolding_all decide) (by with_unfolding_all decide)
  rw [h]
  with_unfolding_all decide

/-- Claim C9: empty input is returned unchanged with zero corrections and never
raises (the function is total), and scoring empty text yields a defined result
with `total_words = 0` whose zero-division guards make the rate-based
components 100 (the confidence component falling back to its default 75). -/
theorem C9_empty_input :
    correct_with_stats "" = ("", 0) ∧
    (calculate_quality_score "" [] 0).total_words = 0 ∧
    (calculate_quality_score "" [] 0).dictionary_match = 100 ∧
    (calculate_quality_score "" [] 0).correction_rate = 100 ∧
    (calculate_quality_score "" [] 0).confidence = 75 ∧
    (calculate_quality_score "" [] 0).corrected_words = 0 := by
  refine ⟨rfl, rfl, by with_unfolding_all decide, by with_unfolding_all decide,
    by with_unfolding_all decide, rfl⟩

/-! ### Claim C10: what the corrections count counts -/

/-- Claim C10: the count returned by `correct_with_stats` comes exclusively
from its per-token pass — for every non-empty text the result is literally the
token pass applied to the multi-word-corrected text, so rewrites of the
preceding multi-word stage contribute 0 (e.g. `4tas` is rewritten to `atas`
with count 0); and `correct_text_with_currency` adds exactly 1 to the count
whenever the currency normalization changed the text at all, as on
`Rp.277.-- Rp.l00`, where two distinct repairs still add just one. -/
theorem C10_counting :
    (∀ t : String, t.data ≠ [] →
      correct_with_stats t =
        (String.mk (tokenPass (_apply_multi_word_correctionsL t.data)).1,
         (tokenPass (_apply_multi_word_correctionsL t.data)).2)) ∧
    correct_with_stats "4tas" = ("atas", 0) ∧
    (∀ t : String, correct_text_with_currency t =
      (normalize_currency_and_numbers (correct_with_stats t).1,
       (correct_with_stats t).2 +
         if normalize_currency_and_numbers (correct_with_stats t).1 ≠ (correct_with_stats t).1
         then 1 else 0)) ∧
    correct_with_stats "Rp.277.-- Rp.l00" = ("Rp.277.-- Rp.l00", 0) ∧
    correct_text_with_currency "Rp.277.-- Rp.l00" = ("Rp 277,- Rp.100", 1) := by
  refine ⟨?_, by decide, fun t => rfl, by decide, by decide⟩
  intro t ht
  obtain ⟨l⟩ := t
  cases l with
  | nil => exact absurd rfl ht
  | cons c cs => rfl

/-- Witness for `C10_counting`: the structural description of the count,
instantiated on the non-empty text `abc`. -/
theorem C10_counting_witness :
    correct_with_stats "abc" =
      (String.mk (tokenPass (_apply_multi_word_correctionsL "abc".data)).1,
       (tokenPass (_apply_multi_word_correctionsL "abc".data)).2) :=
  C10_counting.1 "abc" (by decide)

end OCR
